import Mathlib

/-!
Verification of the MatGen frontend against its specification.

The development shallowly embeds the code that the specification's claims
are about:

* the element reference table and `getElementData` lookup
  (module embedded alongside `MaterialCard.svelte`),
* the API client's `getStructureUrl` resolver (`api.ts`),
* the `StructureViewer.svelte` component: its state variables, the
  `loadStructure` / `extractAtomInfo` / `updateStyle` functions, the atom
  click callback, the `onMount` initialisation and its cleanup, and the
  reactive `cifUrl` watcher.

The external 3Dmol.js library is modelled as an explicit viewer value
(model atoms with per-atom styles, background colour, additive overlays)
together with an abstract CIF parser `parse : String → List Atom` that
stands for `addModel`'s parsing of CIF text.  Asynchrony is modelled by an
event-step machine: starting a load registers an in-flight fetch in a
`pending` list, and a separate `fetchSettles` event resumes the suspended
continuation of `loadStructure` with the fetch's outcome.  Machine
integers do not occur; counts are `Nat` and coordinates are `ℚ`.
-/

namespace MatGen

/-! ### Element reference data (`elementData` module) -/

/-- Record of per-element reference data, mirroring the `ElementProperties`
interface of `types.ts` (optional fields become `Option`). -/
structure ElementProperties where
  name : String
  symbol : String
  atomicNumber : Nat
  atomicMass : ℚ
  category : String
  color : String
  electronConfiguration : String
  electronegativity : Option ℚ := none
  ionizationEnergy : Option ℚ := none
deriving DecidableEq, Repr

/-- The static element table (`export const elementData`), embedded as an
association list in source order. -/
def elementData : List (String × ElementProperties) := [
  ("H", { name := "Hydrogen", symbol := "H", atomicNumber := 1,
          atomicMass := 1.008, category := "Nonmetal", color := "#FFFFFF",
          electronConfiguration := "1s¹",
          electronegativity := some 2.20, ionizationEnergy := some 13.598 }),
  ("Li", { name := "Lithium", symbol := "Li", atomicNumber := 3,
           atomicMass := 6.94, category := "Alkali Metal", color := "#CC80FF",
           electronConfiguration := "[He] 2s¹",
           electronegativity := some 0.98, ionizationEnergy := some 5.392 }),
  ("Be", { name := "Beryllium", symbol := "Be", atomicNumber := 4,
           atomicMass := 9.0122, category := "Alkaline Earth Metal", color := "#C2FF00",
           electronConfiguration := "[He] 2s²",
           electronegativity := some 1.57, ionizationEnergy := some 9.323 }),
  ("B", { name := "Boron", symbol := "B", atomicNumber := 5,
          atomicMass := 10.81, category := "Metalloid", color := "#FFB5B5",
          electronConfiguration := "[He] 2s² 2p¹",
          electronegativity := some 2.04, ionizationEnergy := some 8.298 }),
  ("C", { name := "Carbon", symbol := "C", atomicNumber := 6,
          atomicMass := 12.011, category := "Nonmetal", color := "#909090",
          electronConfiguration := "[He] 2s² 2p²",
          electronegativity := some 2.55, ionizationEnergy := some 11.260 }),
  ("N", { name := "Nitrogen", symbol := "N", atomicNumber := 7,
          atomicMass := 14.007, category := "Nonmetal", color := "#3050F8",
          electronConfiguration := "[He] 2s² 2p³",
          electronegativity := some 3.04, ionizationEnergy := some 14.534 }),
  ("O", { name := "Oxygen", symbol := "O", atomicNumber := 8,
          atomicMass := 15.999, category := "Nonmetal", color := "#FF0D0D",
          electronConfiguration := "[He] 2s² 2p⁴",
          electronegativity := some 3.44, ionizationEnergy := some 13.618 }),
  ("F", { name := "Fluorine", symbol := "F", atomicNumber := 9,
          atomicMass := 18.998, category := "Halogen", color := "#90E050",
          electronConfiguration := "[He] 2s² 2p⁵",
          electronegativity := some 3.98, ionizationEnergy := some 17.423 }),
  ("Na", { name := "Sodium", symbol := "Na", atomicNumber := 11,
           atomicMass := 22.99, category := "Alkali Metal", color := "#AB5CF2",
           electronConfiguration := "[Ne] 3s¹",
           electronegativity := some 0.93, ionizationEnergy := some 5.139 }),
  ("Mg", { name := "Magnesium", symbol := "Mg", atomicNumber := 12,
           atomicMass := 24.305, category := "Alkaline Earth Metal", color := "#8AFF00",
           electronConfiguration := "[Ne] 3s²",
           electronegativity := some 1.31, ionizationEnergy := some 7.646 }),
  ("Al", { name := "Aluminum", symbol := "Al", atomicNumber := 13,
           atomicMass := 26.982, category := "Post-Transition Metal", color := "#BFA6A6",
           electronConfiguration := "[Ne] 3s² 3p¹",
           electronegativity := some 1.61, ionizationEnergy := some 5.986 }),
  ("Si", { name := "Silicon", symbol := "Si", atomicNumber := 14,
           atomicMass := 28.085, category := "Metalloid", color := "#F0C8A0",
           electronConfiguration := "[Ne] 3s² 3p²",
           electronegativity := some 1.90, ionizationEnergy := some 8.152 }),
  ("P", { name := "Phosphorus", symbol := "P", atomicNumber := 15,
          atomicMass := 30.974, category := "Nonmetal", color := "#FF8000",
          electronConfiguration := "[Ne] 3s² 3p³",
          electronegativity := some 2.19, ionizationEnergy := some 10.487 }),
  ("S", { name := "Sulfur", symbol := "S", atomicNumber := 16,
          atomicMass := 32.06, category := "Nonmetal", color := "#FFFF30",
          electronConfiguration := "[Ne] 3s² 3p⁴",
          electronegativity := some 2.58, ionizationEnergy := some 10.360 }),
  ("Cl", { name := "Chlorine", symbol := "Cl", atomicNumber := 17,
           atomicMass := 35.45, category := "Halogen", color := "#1FF01F",
           electronConfiguration := "[Ne] 3s² 3p⁵",
           electronegativity := some 3.16, ionizationEnergy := some 12.968 }),
  ("K", { name := "Potassium", symbol := "K", atomicNumber := 19,
          atomicMass := 39.098, category := "Alkali Metal", color := "#8F40D4",
          electronConfiguration := "[Ar] 4s¹",
          electronegativity := some 0.82, ionizationEnergy := some 4.341 }),
  ("Ca", { name := "Calcium", symbol := "Ca", atomicNumber := 20,
           atomicMass := 40.078, category := "Alkaline Earth Metal", color := "#3DFF00",
           electronConfiguration := "[Ar] 4s²",
           electronegativity := some 1.00, ionizationEnergy := some 6.113 }),
  ("Ti", { name := "Titanium", symbol := "Ti", atomicNumber := 22,
           atomicMass := 47.867, category := "Transition Metal", color := "#BFC2C7",
           electronConfiguration := "[Ar] 3d² 4s²",
           electronegativity := some 1.54, ionizationEnergy := some 6.828 }),
  ("Cr", { name := "Chromium", symbol := "Cr", atomicNumber := 24,
           atomicMass := 51.996, category := "Transition Metal", color := "#8A99C7",
           electronConfiguration := "[Ar] 3d⁵ 4s¹",
           electronegativity := some 1.66, ionizationEnergy := some 6.767 }),
  ("Mn", { name := "Manganese", symbol := "Mn", atomicNumber := 25,
           atomicMass := 54.938, category := "Transition Metal", color := "#9C7AC7",
           electronConfiguration := "[Ar] 3d⁵ 4s²",
           electronegativity := some 1.55, ionizationEnergy := some 7.434 }),
  ("Fe", { name := "Iron", symbol := "Fe", atomicNumber := 26,
           atomicMass := 55.845, category := "Transition Metal", color := "#E06633",
           electronConfiguration := "[Ar] 3d⁶ 4s²",
           electronegativity := some 1.83, ionizationEnergy := some 7.902 }),
  ("Co", { name := "Cobalt", symbol := "Co", atomicNumber := 27,
           atomicMass := 58.933, category := "Transition Metal", color := "#F090A0",
           electronConfiguration := "[Ar] 3d⁷ 4s²",
           electronegativity := some 1.88, ionizationEnergy := some 7.881 }),
  ("Ni", { name := "Nickel", symbol := "Ni", atomicNumber := 28,
           atomicMass := 58.693, category := "Transition Metal", color := "#50D050",
           electronConfiguration := "[Ar] 3d⁸ 4s²",
           electronegativity := some 1.91, ionizationEnergy := some 7.640 }),
  ("Cu", { name := "Copper", symbol := "Cu", atomicNumber := 29,
           atomicMass := 63.546, category := "Transition Metal", color := "#C88033",
           electronConfiguration := "[Ar] 3d¹⁰ 4s¹",
           electronegativity := some 1.90, ionizationEnergy := some 7.726 }),
  ("Zn", { name := "Zinc", symbol := "Zn", atomicNumber := 30,
           atomicMass := 65.38, category := "Transition Metal", color := "#7D80B0",
           electronConfiguration := "[Ar] 3d¹⁰ 4s²",
           electronegativity := some 1.65, ionizationEnergy := some 9.394 }),
  ("Ga", { name := "Gallium", symbol := "Ga", atomicNumber := 31,
           atomicMass := 69.723, category := "Post-Transition Metal", color := "#C28F8F",
           electronConfiguration := "[Ar] 3d¹⁰ 4s² 4p¹",
           electronegativity := some 1.81, ionizationEnergy := some 5.999 }),
  ("Ge", { name := "Germanium", symbol := "Ge", atomicNumber := 32,
           atomicMass := 72.630, category := "Metalloid", color := "#668F8F",
           electronConfiguration := "[Ar] 3d¹⁰ 4s² 4p²",
           electronegativity := some 2.01, ionizationEnergy := some 7.900 }),
  ("As", { name := "Arsenic", symbol := "As", atomicNumber := 33,
           atomicMass := 74.922, category := "Metalloid", color := "#BD80E3",
           electronConfiguration := "[Ar] 3d¹⁰ 4s² 4p³",
           electronegativity := some 2.18, ionizationEnergy := some 9.815 }),
  ("Se", { name := "Selenium", symbol := "Se", atomicNumber := 34,
           atomicMass := 78.971, category := "Nonmetal", color := "#FFA100",
           electronConfiguration := "[Ar] 3d¹⁰ 4s² 4p⁴",
           electronegativity := some 2.55, ionizationEnergy := some 9.752 }),
  ("Rb", { name := "Rubidium", symbol := "Rb", atomicNumber := 37,
           atomicMass := 85.468, category := "Alkali Metal", color := "#702EB0",
           electronConfiguration := "[Kr] 5s¹",
           electronegativity := some 0.82, ionizationEnergy := some 4.177 }),
  ("Sr", { name := "Strontium", symbol := "Sr", atomicNumber := 38,
           atomicMass := 87.62, category := "Alkaline Earth Metal", color := "#00FF00",
           electronConfiguration := "[Kr] 5s²",
           electronegativity := some 0.95, ionizationEnergy := some 5.695 }),
  ("Zr", { name := "Zirconium", symbol := "Zr", atomicNumber := 40,
           atomicMass := 91.224, category := "Transition Metal", color := "#94E0E0",
           electronConfiguration := "[Kr] 4d² 5s²",
           electronegativity := some 1.33, ionizationEnergy := some 6.634 }),
  ("Nb", { name := "Niobium", symbol := "Nb", atomicNumber := 41,
           atomicMass := 92.906, category := "Transition Metal", color := "#73C2C9",
           electronConfiguration := "[Kr] 4d⁴ 5s¹",
           electronegativity := some 1.6, ionizationEnergy := some 6.759 }),
  ("Mo", { name := "Molybdenum", symbol := "Mo", atomicNumber := 42,
           atomicMass := 95.95, category := "Transition Metal", color := "#54B5B5",
           electronConfiguration := "[Kr] 4d⁵ 5s¹",
           electronegativity := some 2.16, ionizationEnergy := some 7.092 }),
  ("Tc", { name := "Technetium", symbol := "Tc", atomicNumber := 43,
           atomicMass := 98, category := "Transition Metal", color := "#3B9E9E",
           electronConfiguration := "[Kr] 4d⁵ 5s²",
           electronegativity := some 1.9, ionizationEnergy := some 7.28 }),
  ("Ru", { name := "Ruthenium", symbol := "Ru", atomicNumber := 44,
           atomicMass := 101.07, category := "Transition Metal", color := "#248F8F",
           electronConfiguration := "[Kr] 4d⁷ 5s¹",
           electronegativity := some 2.2, ionizationEnergy := some 7.36 }),
  ("Rh", { name := "Rhodium", symbol := "Rh", atomicNumber := 45,
           atomicMass := 102.91, category := "Transition Metal", color := "#0A7D8C",
           electronConfiguration := "[Kr] 4d⁸ 5s¹",
           electronegativity := some 2.28, ionizationEnergy := some 7.459 }),
  ("Pd", { name := "Palladium", symbol := "Pd", atomicNumber := 46,
           atomicMass := 106.42, category := "Transition Metal", color := "#006985",
           electronConfiguration := "[Kr] 4d¹⁰",
           electronegativity := some 2.2, ionizationEnergy := some 8.337 }),
  ("Ag", { name := "Silver", symbol := "Ag", atomicNumber := 47,
           atomicMass := 107.87, category := "Transition Metal", color := "#C0C0C0",
           electronConfiguration := "[Kr] 4d¹⁰ 5s¹",
           electronegativity := some 1.93, ionizationEnergy := some 7.576 }),
  ("In", { name := "Indium", symbol := "In", atomicNumber := 49,
           atomicMass := 114.82, category := "Post-Transition Metal", color := "#A67573",
           electronConfiguration := "[Kr] 4d¹⁰ 5s² 5p¹",
           electronegativity := some 1.78, ionizationEnergy := some 5.786 }),
  ("Sn", { name := "Tin", symbol := "Sn", atomicNumber := 50,
           atomicMass := 118.71, category := "Post-Transition Metal", color := "#668080",
           electronConfiguration := "[Kr] 4d¹⁰ 5s² 5p²",
           electronegativity := some 1.96, ionizationEnergy := some 7.344 }),
  ("Sb", { name := "Antimony", symbol := "Sb", atomicNumber := 51,
           atomicMass := 121.76, category := "Metalloid", color := "#9E63B5",
           electronConfiguration := "[Kr] 4d¹⁰ 5s² 5p³",
           electronegativity := some 2.05, ionizationEnergy := some 8.64 }),
  ("Te", { name := "Tellurium", symbol := "Te", atomicNumber := 52,
           atomicMass := 127.60, category := "Metalloid", color := "#D47A00",
           electronConfiguration := "[Kr] 4d¹⁰ 5s² 5p⁴",
           electronegativity := some 2.1, ionizationEnergy := some 9.01 }),
  ("Ba", { name := "Barium", symbol := "Ba", atomicNumber := 56,
           atomicMass := 137.33, category := "Alkaline Earth Metal", color := "#00C900",
           electronConfiguration := "[Xe] 6s²",
           electronegativity := some 0.89, ionizationEnergy := some 5.212 }),
  ("La", { name := "Lanthanum", symbol := "La", atomicNumber := 57,
           atomicMass := 138.91, category := "Lanthanide", color := "#70D4FF",
           electronConfiguration := "[Xe] 5d¹ 6s²",
           electronegativity := some 1.1, ionizationEnergy := some 5.577 }),
  ("Ce", { name := "Cerium", symbol := "Ce", atomicNumber := 58,
           atomicMass := 140.12, category := "Lanthanide", color := "#FFFFC7",
           electronConfiguration := "[Xe] 4f¹ 5d¹ 6s²",
           electronegativity := some 1.12, ionizationEnergy := some 5.539 }),
  ("Gd", { name := "Gadolinium", symbol := "Gd", atomicNumber := 64,
           atomicMass := 157.25, category := "Lanthanide", color := "#45FEDE",
           electronConfiguration := "[Xe] 4f⁷ 5d¹ 6s²",
           electronegativity := some 1.2, ionizationEnergy := some 6.15 }),
  ("Hf", { name := "Hafnium", symbol := "Hf", atomicNumber := 72,
           atomicMass := 178.49, category := "Transition Metal", color := "#4DC2FF",
           electronConfiguration := "[Xe] 4f¹⁴ 5d² 6s²",
           electronegativity := some 1.3, ionizationEnergy := some 6.825 }),
  ("Bi", { name := "Bismuth", symbol := "Bi", atomicNumber := 83,
           atomicMass := 208.98, category := "Post-Transition Metal", color := "#9E4FB5",
           electronConfiguration := "[Xe] 4f¹⁴ 5d¹⁰ 6s² 6p³",
           electronegativity := some 2.02, ionizationEnergy := some 7.289 }),
  ("Pb", { name := "Lead", symbol := "Pb", atomicNumber := 82,
           atomicMass := 207.2, category := "Post-Transition Metal", color := "#575961",
           electronConfiguration := "[Xe] 4f¹⁴ 5d¹⁰ 6s² 6p²",
           electronegativity := some 2.33, ionizationEnergy := some 7.417 })
]

/-- The fallback record built inside `getElementData` for symbols missing
from the table. -/
def defaultElement (symbol : String) : ElementProperties :=
  { name := "Unknown", symbol := symbol, atomicNumber := 0, atomicMass := 0,
    category := "Unknown", color := "#CCCCCC", electronConfiguration := "Unknown" }

/-- Embedding of `getElementData`: look the symbol up in the table and fall
back to the default record (`elementData[symbol] || defaultElement`). -/
def getElementData (symbol : String) : ElementProperties :=
  match elementData.find? (fun p => p.1 == symbol) with
  | some p => p.2
  | none => defaultElement symbol

/-- Embedding of `getElementColor`. -/
def getElementColor (symbol : String) : String :=
  (getElementData symbol).color

/-! ### API client (`api.ts`) -/

/-- Default API base URL (`import.meta.env.VITE_API_URL` unset). -/
def API_BASE_URL : String := "http://localhost:5000/api"

/-- JavaScript string truthiness: `null` and the empty string are falsy. -/
def truthyStr : Option String → Bool
  | none => false
  | some s => s ≠ ""

/-- Whether the first list is an initial segment of the second. -/
def isLeading : List Char → List Char → Bool
  | [], _ => true
  | _ :: _, [] => false
  | a :: as, b :: bs => a == b && isLeading as bs

/-- Whether the pattern occurs contiguously somewhere in the list; this is
`String.prototype.includes`. -/
def occursIn (pat : List Char) : List Char → Bool
  | [] => isLeading pat []
  | b :: bs => isLeading pat (b :: bs) || occursIn pat bs

/-- Embedding of `String.prototype.startsWith`. -/
def strStartsWith (s pre : String) : Bool :=
  isLeading pre.toList s.toList

/-- Embedding of `String.prototype.endsWith`. -/
def strEndsWith (s post : String) : Bool :=
  isLeading post.toList.reverse s.toList.reverse

/-- Embedding of `String.prototype.slice(0, -n)`: drop the last `n`
characters. -/
def strDropRight (s : String) (n : Nat) : String :=
  ⟨s.toList.take (s.toList.length - n)⟩

/-- Split a character list at every occurrence of the separator character
(`String.prototype.split` with a one-character separator). -/
def splitChar (c : Char) : List Char → List (List Char)
  | [] => [[]]
  | a :: as =>
    if a = c then [] :: splitChar c as
    else
      match splitChar c as with
      | [] => [[a]]
      | r :: rs => (a :: r) :: rs

/-- The last component of `path.split('/')` (`….pop()`). -/
def lastSlashComponent (p : String) : String :=
  ((splitChar '/' p.toList).map (fun l => (⟨l⟩ : String))).getLastD ""

/-- The regex fallback `API_BASE_URL.replace(/\/api\/?$/, '')` of
`getStructureUrl`, reached only when the base does not end in `"/api"`. -/
def stripApiTail (s : String) : String :=
  if strEndsWith s "/api/" then strDropRight s 5
  else if strEndsWith s "/api" then strDropRight s 4
  else s

/-- Embedding of `getStructureUrl` from `api.ts`: resolve a structure-file
path to an absolute URL, returning `none` for falsy input. -/
def getStructureUrl (path : Option String) : Option String :=
  match path with
  | none => none
  | some p =>
    if p = "" then none
    else if strStartsWith p "http" then some p
    else if strStartsWith p "/api/structures/" then
      some ((if strEndsWith API_BASE_URL "/api" then strDropRight API_BASE_URL 4
             else stripApiTail API_BASE_URL) ++ p)
    else
      some (API_BASE_URL ++ "/structures/" ++ lastSlashComponent p)

/-! ### The 3Dmol viewer model

The viewer instance created by `$3Dmol.createViewer` is modelled as the
state the component can observe and mutate through the library calls it
makes: the list of model atoms with the style each atom currently carries
(`setStyle` replaces the style of every atom matched by its selector),
the background colour, the additive overlays created by `addUnitCell` /
`addLabels`, and whether `setClickable` has installed the click callback.
-/

/-- One atom as returned by the external CIF parser (fields the component
reads: `elem`, `x`, `y`, `z`, `serial`). -/
structure Atom where
  elem : String
  x : ℚ
  y : ℚ
  z : ℚ
  serial : Nat
deriving DecidableEq, Repr

/-- Selector argument of `setStyle`: `{}`, `{elem: e}` or `{serial: n}`. -/
inductive Sel where
  | all
  | elem (e : String)
  | serial (n : Nat)
deriving DecidableEq, Repr

/-- Whether an atom is matched by a selector. -/
def Atom.sel (a : Atom) : Sel → Bool
  | .all => true
  | .elem e => a.elem == e
  | .serial n => a.serial == n

/-- Style of one shape entry (`{radius: 0.3, opacity: 1.0}` …); absent
keys are `none`. -/
structure ShapeStyle where
  color : Option String := none
  radius : Option ℚ := none
  scale : Option ℚ := none
  opacity : Option ℚ := none
deriving DecidableEq, Repr

/-- A style object passed to `setStyle` (`{stick: …, sphere: …, line: …,
cartoon: …}`). -/
structure StyleSpec where
  stick : Option ShapeStyle := none
  sphere : Option ShapeStyle := none
  line : Option ShapeStyle := none
  cartoon : Bool := false
deriving DecidableEq, Repr

/-- Overlays added by `addUnitCell` and `addLabels`; each call appends a
new overlay. -/
inductive Overlay where
  | unitCell
  | labels (font : String) (alignment : String)
deriving DecidableEq, Repr

/-- Observable state of the external viewer instance. -/
structure Viewer where
  model : List (Atom × StyleSpec)
  background : String
  overlays : List Overlay
  clickable : Bool
deriving DecidableEq, Repr

/-- A freshly created viewer (`$3Dmol.createViewer`). -/
def Viewer.create (bg : String) : Viewer :=
  { model := [], background := bg, overlays := [], clickable := false }

/-- Embedding of `viewer.clear()`: removes models, shapes and labels. -/
def Viewer.clear (v : Viewer) : Viewer :=
  { v with model := [], overlays := [], clickable := false }

/-- List-level `setStyle`: replace the style of every matched atom. -/
def setStyleL (m : List (Atom × StyleSpec)) (s : Sel) (st : StyleSpec) :
    List (Atom × StyleSpec) :=
  m.map (fun p => if p.1.sel s then (p.1, st) else p)

/-- Embedding of `viewer.setStyle(sel, st)`. -/
def Viewer.setStyle (v : Viewer) (s : Sel) (st : StyleSpec) : Viewer :=
  { v with model := setStyleL v.model s st }

/-- Embedding of `viewer.addModel(data, "cif", …)`: the parsed atoms are
appended with the default (empty) style. -/
def Viewer.addModel (v : Viewer) (atoms : List Atom) : Viewer :=
  { v with model := v.model ++ atoms.map (fun a => (a, {})) }

/-- Embedding of `viewer.addUnitCell()`. -/
def Viewer.addUnitCell (v : Viewer) : Viewer :=
  { v with overlays := v.overlays ++ [.unitCell] }

/-- Embedding of `viewer.addLabels({}, {font, alignment})`. -/
def Viewer.addLabels (v : Viewer) (font alignment : String) : Viewer :=
  { v with overlays := v.overlays ++ [.labels font alignment] }

/-- The atoms of the current model, as `extractAtomInfo` retrieves them
through `getModel().selectedAtoms({})`. -/
def Viewer.atoms (v : Viewer) : List Atom :=
  v.model.map Prod.fst

/-! ### Atom metadata extraction (`extractAtomInfo`) -/

/-- Per-atom metadata record (`AtomInfo` of `types.ts`). -/
structure AtomInfo where
  element : String
  atomicNumber : Nat
  position : ℚ × ℚ × ℚ
  elementProperties : ElementProperties
deriving DecidableEq, Repr

/-- The `AtomInfo` object built for one atom inside `extractAtomInfo` and
inside the click callback. -/
def mkAtomInfo (a : Atom) : AtomInfo :=
  { element := a.elem, atomicNumber := (getElementData a.elem).atomicNumber,
    position := (a.x, a.y, a.z), elementProperties := getElementData a.elem }

/-- One step of the counting loop: `atomStats[element] =
(atomStats[element] || 0) + 1`, with JavaScript object insertion order. -/
def bumpStat : List (String × Nat) → String → List (String × Nat)
  | [], e => [(e, 1)]
  | (k, n) :: rest, e =>
    if k = e then (k, n + 1) :: rest else (k, n) :: bumpStat rest e

/-- Value stored under a key of the stats object (0 when absent). -/
def statValue : List (String × Nat) → String → Nat
  | [], _ => 0
  | (k1, n) :: rest, k => if k1 = k then n else statValue rest k

/-- The stats object as built by the counting loop of `extractAtomInfo`,
before the key sort. -/
def rawStats (atoms : List Atom) : List (String × Nat) :=
  atoms.foldl (fun st a => bumpStat st a.elem) []

/-- Lexicographic code-point comparison of character lists; this is the
comparison JavaScript's default `Array.prototype.sort` applies to the
(ASCII) element symbols. -/
def lexLe : List Char → List Char → Bool
  | [], _ => true
  | _ :: _, [] => false
  | a :: as, b :: bs => if a = b then lexLe as bs else decide (a < b)

/-- The string order used to sort the stats keys. -/
def strLe (a b : String) : Prop := lexLe a.toList b.toList = true

instance : DecidableRel strLe :=
  fun a b => inferInstanceAs (Decidable (lexLe a.toList b.toList = true))

/-- The key-sorting pass of `extractAtomInfo`:
`Object.keys(atomStats).sort().forEach(key => tempStats[key] = atomStats[key])`. -/
def sortStats (st : List (String × Nat)) : List (String × Nat) :=
  ((st.map Prod.fst).insertionSort strLe).map (fun k => (k, statValue st k))

/-- The final `atomStats` produced by a successful `extractAtomInfo`. -/
def extractStats (atoms : List Atom) : List (String × Nat) :=
  sortStats (rawStats atoms)

/-- The final `atomsInfo` produced by a successful `extractAtomInfo`. -/
def extractInfos (atoms : List Atom) : List AtomInfo :=
  atoms.map mkAtomInfo

/-! ### Component state and the `loadStructure` lifecycle -/

/-- Fetch timeout installed by `loadStructure`
(`setTimeout(() => controller.abort(), 15000)`). -/
def FETCH_TIMEOUT_MS : Nat := 15000

/-- Possible ways the awaited `fetch` of `loadStructure` can settle:
aborted by the 15-second timer (`AbortError`), rejected with a network
error, or resolved with an HTTP response. -/
inductive FetchOutcome where
  | timeout
  | netError (msg : String)
  | response (ok : Bool) (status : Nat) (statusText : String) (body : String)
deriving DecidableEq, Repr

/-- Possible outcomes of `initViewer`'s two awaited phases: 3Dmol.js
acquisition and viewer construction. -/
inductive InitOutcome where
  | libFailed (msg : String)
  | createFailed (msg : String)
  | success
deriving DecidableEq, Repr

/-- The component's script-level state variables, plus the bookkeeping the
asynchronous embedding needs: `pending` holds the in-flight fetches
(identifier and resolved URL), `nextId` numbers them, `mounted` records
that `onMount` ran and `destroyed` that its cleanup ran. -/
structure CompState where
  viewer : Option Viewer
  loading : Bool
  error : Option String
  atomsInfo : List AtomInfo
  atomStats : List (String × Nat)
  currentAtom : Option AtomInfo
  cifUrl : Option String
  style : String
  useElementColors : Bool
  showUnitCell : Bool
  showAtomLabels : Bool
  backgroundColor : String
  pending : List (Nat × String)
  nextId : Nat
  mounted : Bool
  destroyed : Bool
deriving DecidableEq, Repr

/-- The component's state right after script initialisation, with the
`cifUrl` prop supplied by the host. -/
def initialState (url : Option String) : CompState :=
  { viewer := none, loading := true, error := none, atomsInfo := [],
    atomStats := [], currentAtom := none, cifUrl := url,
    style := "ball and stick", useElementColors := true,
    showUnitCell := true, showAtomLabels := false,
    backgroundColor := "#ffffff", pending := [], nextId := 0,
    mounted := false, destroyed := false }

/-- The first, synchronous half of `loadStructure`, up to the `await
fetch`: guard (`!viewer || !cifUrl`), `loading = true; error = null`,
URL resolution, and registration of the in-flight fetch. -/
def startLoad (s : CompState) : CompState :=
  if s.viewer.isNone || !truthyStr s.cifUrl then s
  else
    let s1 := { s with loading := true, error := none }
    match getStructureUrl s1.cifUrl with
    | none =>
      { s1 with error := some "Failed to load structure: Invalid structure URL",
                loading := false }
    | some fullUrl =>
      { s1 with pending := s1.pending ++ [(s1.nextId, fullUrl)],
                nextId := s1.nextId + 1 }

/-- The inner fetch `try` block: a timeout abort becomes the descriptive
timeout message, other rejections are rethrown, a non-ok response throws
`Server returned …`, an ok response yields its text. -/
def fetchResult : FetchOutcome → Except String String
  | .timeout => .error "Request timed out. Server may be unavailable."
  | .netError msg => .error msg
  | .response ok status statusText body =>
    if ok then .ok body
    else .error ("Server returned " ++ toString status ++ " " ++ statusText)

/-- The CIF format sniff: `cifData.includes("data_") ||
cifData.includes("_cell_")`. -/
def hasCifMarkers (cifData : String) : Bool :=
  occursIn "data_".toList cifData.toList || occursIn "_cell_".toList cifData.toList

/-- The validation step of `loadStructure`: reject text without either CIF
marker. -/
def validateCif (cifData : String) : Except String String :=
  if hasCifMarkers cifData then .ok cifData
  else .error "Response is not a valid CIF file"

/-- The base style `loadStructure` applies to all atoms after adding the
model. -/
def baseLoadStyle : StyleSpec :=
  { stick := some { radius := some 0.3, opacity := some 1.0 },
    sphere := some { scale := some 0.5, opacity := some 1.0 } }

/-- The per-element colour style applied in `loadStructure`'s element
colour loop. -/
def elemLoadStyle (color : String) : StyleSpec :=
  { sphere := some { color := some color, scale := some 0.5, opacity := some 1.0 },
    stick := some { color := some color, radius := some 0.3, opacity := some 1.0 } }

/-- The highlight style the click callback puts on the clicked atom. -/
def highlightStyle : StyleSpec :=
  { sphere := some { scale := some 0.7, color := some "#FFC107", opacity := some 1.0 } }

/-- The element colour loop of `loadStructure` (`for (const atom of
atomsInfo) viewer.setStyle({elem}, …)`). -/
def applyLoadColors (v : Viewer) (infos : List AtomInfo) : Viewer :=
  infos.foldl
    (fun v info => v.setStyle (.elem info.element) (elemLoadStyle (getElementColor info.element)))
    v

/-- The success continuation of `loadStructure` after validation, in
source order: clear viewer and atom state, set background, add the parsed
model, `extractAtomInfo`, base style, element colours, unit cell, zoom,
click setup, render. -/
def loadSuccess (parse : String → List Atom) (s : CompState) (cifData : String) :
    CompState :=
  match s.viewer with
  | none => s
  | some v0 =>
    let v1 := v0.clear
    let s1 := { s with atomsInfo := [], atomStats := [] }
    let v2 := { v1 with background := s1.backgroundColor }
    let v3 := v2.addModel (parse cifData)
    let s2 := { s1 with atomsInfo := extractInfos v3.atoms,
                        atomStats := extractStats v3.atoms }
    let v4 := v3.setStyle .all baseLoadStyle
    let v5 := if s2.useElementColors then applyLoadColors v4 s2.atomsInfo else v4
    let v6 := if s2.showUnitCell then v5.addUnitCell else v5
    let v7 := { v6 with clickable := true }
    { s2 with viewer := some v7, loading := false }

/-- Resumption of a suspended `loadStructure` when its fetch settles.  The
event is meaningful only for a fetch that is actually in flight; the
settled fetch is removed from `pending` (each continuation resumes once).
Failures of the fetch or of validation land in the outer `catch`, which
fills the error slot. -/
def settleLoad (parse : String → List Atom) (s : CompState) (id : Nat)
    (outcome : FetchOutcome) : CompState :=
  if (s.pending.find? (fun p => p.1 == id)).isNone then s
  else
    let s1 := { s with pending := s.pending.filter (fun p => p.1 != id) }
    match fetchResult outcome >>= validateCif with
    | .ok cifData => loadSuccess parse s1 cifData
    | .error msg =>
      { s1 with error := some ("Failed to load structure: " ++ msg),
                loading := false }

/-! ### Style application and interaction -/

/-- The `switch (style)` of `updateStyle`. -/
def styleObjFor (style : String) : StyleSpec :=
  if style = "ball and stick" then
    { stick := some { radius := some 0.3 }, sphere := some { scale := some 0.5 } }
  else if style = "stick" then { stick := some { radius := some 0.3 } }
  else if style = "sphere" then { sphere := some { scale := some 0.6 } }
  else if style = "line" then { line := some {} }
  else if style = "cartoon" then { cartoon := true }
  else { stick := some { radius := some 0.3 }, sphere := some { scale := some 0.5 } }

/-- The per-element colour object of `updateStyle`'s colour loop (only the
four listed styles recolour). -/
def elemColorStyle (style color : String) : Option StyleSpec :=
  if style = "ball and stick" then
    some { sphere := some { color := some color }, stick := some { color := some color } }
  else if style = "sphere" then some { sphere := some { color := some color } }
  else if style = "stick" then some { stick := some { color := some color } }
  else if style = "line" then some { line := some { color := some color } }
  else none

/-- The element colour loop of `updateStyle` over a model list. -/
def applyUpdateColors (style : String) (infos : List AtomInfo)
    (m : List (Atom × StyleSpec)) : List (Atom × StyleSpec) :=
  infos.foldl
    (fun m info =>
      match elemColorStyle style (getElementColor info.element) with
      | some st => setStyleL m (.elem info.element) st
      | none => m)
    m

/-- Embedding of `updateStyle`: global style, optional element colours,
optional unit cell and label overlays, background, render. -/
def updateStyle (s : CompState) : CompState :=
  match s.viewer with
  | none => s
  | some v0 =>
    let m1 := setStyleL v0.model .all (styleObjFor s.style)
    let m2 := if s.useElementColors then applyUpdateColors s.style s.atomsInfo m1 else m1
    let v1 := { v0 with model := m2 }
    let v2 := if s.showUnitCell then v1.addUnitCell else v1
    let v3 := if s.showAtomLabels then v2.addLabels "12px Arial" "center" else v2
    let v4 := { v3 with background := s.backgroundColor }
    { s with viewer := some v4 }

/-- Embedding of the click callback installed by `loadStructure`: resolve
the clicked atom's element data, set `currentAtom`, reset all styles via
`updateStyle`, then highlight just the clicked serial. -/
def clickAtom (s : CompState) (serial : Nat) : CompState :=
  match s.viewer with
  | none => s
  | some v =>
    if !v.clickable then s
    else
      match v.atoms.find? (fun a => a.serial == serial) with
      | none => s
      | some atom =>
        let s1 := { s with currentAtom := some (mkAtomInfo atom) }
        let s2 := updateStyle s1
        match s2.viewer with
        | none => s2
        | some v2 => { s2 with viewer := some (v2.setStyle (.serial serial) highlightStyle) }

/-! ### Mount, unmount and the reactive watcher -/

/-- Embedding of `initViewer`, run once from `onMount`: on library or
construction failure fill the error slot; on success create the viewer
and either start the first load or report the missing URL. -/
def initViewer (s : CompState) (outcome : InitOutcome) : CompState :=
  if s.mounted then s
  else
    let s1 := { s with mounted := true, loading := true, error := none }
    match outcome with
    | .libFailed msg =>
      { s1 with error := some ("Failed to load 3DMol.js: " ++ msg), loading := false }
    | .createFailed msg =>
      { s1 with error := some ("Failed to create 3D viewer: " ++ msg), loading := false }
    | .success =>
      let s2 := { s1 with viewer := some (Viewer.create s1.backgroundColor) }
      if truthyStr s2.cifUrl then startLoad s2
      else { s2 with error := some "No structure URL provided", loading := false }

/-- Embedding of the `onMount` cleanup: the resize handler is removed and
`viewer.clear()` is called.  The cleanup does not touch `pending`: the
source never aborts an in-flight fetch on unmount. -/
def unmountComp (s : CompState) : CompState :=
  let s1 := { s with destroyed := true }
  match s1.viewer with
  | none => s1
  | some v => { s1 with viewer := some v.clear }

/-- Events the component reacts to.  `refChange` is the `cifUrl` prop
changing (the reactive `$:` watcher then calls `loadStructure`),
`fetchSettles` resumes an in-flight load, `styleChange` is the style
select firing `handleStyleChange`, `click` is a click on a model atom. -/
inductive Event where
  | mount (outcome : InitOutcome)
  | refChange (url : Option String)
  | fetchSettles (id : Nat) (outcome : FetchOutcome)
  | click (serial : Nat)
  | styleChange (style : String)
  | unmount
deriving DecidableEq, Repr

/-- One event step of the component. -/
def step (parse : String → List Atom) (s : CompState) : Event → CompState
  | .mount outcome => initViewer s outcome
  | .refChange url => startLoad { s with cifUrl := url }
  | .fetchSettles id outcome => settleLoad parse s id outcome
  | .click serial => clickAtom s serial
  | .styleChange st => updateStyle { s with style := st }
  | .unmount => unmountComp s

/-- A run of the component over a list of events. -/
def run (parse : String → List Atom) (s : CompState) (events : List Event) :
    CompState :=
  events.foldl (step parse) s

/-- Starting and then completing one load of the current reference with an
ok response carrying `body`; used to state load idempotence. -/
def loadOnce (parse : String → List Atom) (s : CompState) (body : String) :
    CompState :=
  settleLoad parse (startLoad s) s.nextId (.response true 200 "OK" body)

/-! ### Observers used by the specification claims -/

/-- The atoms currently loaded in the active viewer instance (empty when
no viewer exists). -/
def modelAtoms (s : CompState) : List Atom :=
  match s.viewer with
  | none => []
  | some v => v.atoms

/-- Invariant of claim C4: while the component is not torn down,
`atomsInfo` and `atomStats` are exactly the metadata `extractAtomInfo`
derives from the atoms loaded in the active viewer instance. -/
def atomStateMatchesViewer (s : CompState) : Prop :=
  s.destroyed = false →
    s.atomsInfo = extractInfos (modelAtoms s)
    ∧ s.atomStats = extractStats (modelAtoms s)

/-- Auxiliary invariant for the induction: before `onMount` runs there is
no viewer and no atom state. -/
def preMountClean (s : CompState) : Prop :=
  s.mounted = false → s.viewer = none ∧ s.atomsInfo = [] ∧ s.atomStats = []

/-- The error condition enumerated by claim C2 for a settling fetch:
timeout, non-ok HTTP response, or missing CIF markers.  A network
rejection of the fetch itself is not in the enumeration. -/
def c2Cond : FetchOutcome → Bool
  | .timeout => true
  | .netError _ => false
  | .response ok _ _ body => !ok || !hasCifMarkers body

/-- Whether the fetch settled as a network rejection. -/
def isNetFailure : FetchOutcome → Bool
  | .netError _ => true
  | _ => false

/-- Serials of the atoms currently carrying the click highlight style. -/
def highlightedSerials (s : CompState) : List Nat :=
  match s.viewer with
  | none => []
  | some v => (v.model.filter (fun p => p.2 == highlightStyle)).map (fun p => p.1.serial)

/-- The model (atoms with their styles) of the active viewer. -/
def viewerModelOf (s : CompState) : List (Atom × StyleSpec) :=
  match s.viewer with
  | none => []
  | some v => v.model

/-- The background colour of the active viewer. -/
def viewerBackgroundOf (s : CompState) : String :=
  match s.viewer with
  | none => ""
  | some v => v.background

/-- The overlays of the active viewer. -/
def viewerOverlaysOf (s : CompState) : List Overlay :=
  match s.viewer with
  | none => []
  | some v => v.overlays

/-- Visual equality used by claim C7: same atom styles, same background,
and the same set of overlays (identical duplicate overlay directives draw
the same pixels, so overlays compare as sets). -/
def sameVisual (t u : CompState) : Prop :=
  viewerModelOf t = viewerModelOf u
  ∧ viewerBackgroundOf t = viewerBackgroundOf u
  ∧ ∀ o : Overlay, o ∈ viewerOverlaysOf t ↔ o ∈ viewerOverlaysOf u

/-- A concrete parser for the failing traces of claims C1 and C8:
"data_ one" parses to a single Fe atom, "data_ two" to a single O atom. -/
def parseRace : String → List Atom := fun d =>
  if d = "data_ one" then [{ elem := "Fe", x := 0, y := 0, z := 0, serial := 1 }]
  else if d = "data_ two" then [{ elem := "O", x := 0, y := 0, z := 0, serial := 1 }]
  else []

/-- A concrete parser for the C6 witness: a 2-atom structure with one Fe
and one O atom. -/
def parseFeO : String → List Atom := fun _ =>
  [{ elem := "Fe", x := 0, y := 0, z := 0, serial := 1 },
   { elem := "O", x := 1, y := 0, z := 0, serial := 2 }]

/-! ## Theorems -/

/-! ### Helper lemmas about the key order -/

theorem lexLe_total : ∀ as bs : List Char, lexLe as bs = true ∨ lexLe bs as = true
  | [], _ => Or.inl rfl
  | _ :: _, [] => Or.inr rfl
  | a :: as, b :: bs => by
    by_cases h : a = b
    · subst h
      simpa [lexLe] using lexLe_total as bs
    · rcases lt_or_gt_of_ne h with hlt | hgt
      · exact Or.inl (by simp [lexLe, h, hlt])
      · refine Or.inr ?_
        have hba : ¬ b = a := fun hba => h hba.symm
        simp [lexLe, hba]
        exact hgt

theorem lexLe_trans : ∀ as bs cs : List Char,
    lexLe as bs = true → lexLe bs cs = true → lexLe as cs = true
  | [], _, _ => fun _ _ => rfl
  | _ :: _, [], _ => fun h _ => by simp [lexLe] at h
  | _ :: _, _ :: _, [] => fun _ h => by simp [lexLe] at h
  | a :: as, b :: bs, c :: cs => fun h1 h2 => by
    by_cases hab : a = b <;> by_cases hbc : b = c
    · subst hab; subst hbc
      simp only [lexLe, if_pos rfl] at h1 h2 ⊢
      exact lexLe_trans as bs cs h1 h2
    · subst hab
      simp only [lexLe, if_pos rfl] at h1
      simp only [lexLe, if_neg hbc] at h2
      simp [lexLe, hbc, of_decide_eq_true h2]
    · subst hbc
      simp only [lexLe, if_neg hab] at h1
      simp [lexLe, hab, of_decide_eq_true h1]
    · simp only [lexLe, if_neg hab] at h1
      simp only [lexLe, if_neg hbc] at h2
      have hac : a < c := lt_trans (of_decide_eq_true h1) (of_decide_eq_true h2)
      simp [lexLe, ne_of_lt hac, hac]

theorem strLe_total (a b : String) : strLe a b ∨ strLe b a :=
  lexLe_total a.toList b.toList

theorem strLe_trans (a b c : String) : strLe a b → strLe b c → strLe a c :=
  lexLe_trans a.toList b.toList c.toList

/-! ### Helper lemmas about the statistics object -/

theorem statValue_bumpStat (e k : String) :
    ∀ st : List (String × Nat),
      statValue (bumpStat st e) k = statValue st k + (if k = e then 1 else 0)
  | [] => by
    by_cases h : k = e
    · subst h; simp [bumpStat, statValue]
    · have h1 : ¬ e = k := fun he => h he.symm
      simp [bumpStat, statValue, h, h1]
  | (k1, n1) :: rest => by
    by_cases h1 : k1 = e
    · subst h1
      by_cases h2 : k1 = k
      · subst h2; simp [bumpStat, statValue]
      · have h3 : ¬ k = k1 := fun hk => h2 hk.symm
        simp [bumpStat, statValue, h2, h3]
    · by_cases h2 : k1 = k
      · subst h2
        have h3 : ¬ k1 = e := h1
        simp [bumpStat, statValue, h3]
      · simp [bumpStat, statValue, h1, h2, statValue_bumpStat e k rest]

theorem statValue_foldl_bump (k : String) :
    ∀ (atoms : List Atom) (st : List (String × Nat)),
      statValue (atoms.foldl (fun st a => bumpStat st a.elem) st) k
        = statValue st k + atoms.countP (fun a => a.elem == k)
  | [], st => by simp
  | a :: rest, st => by
    simp only [List.foldl_cons, List.countP_cons]
    rw [statValue_foldl_bump k rest]
    rw [statValue_bumpStat]
    by_cases h : k = a.elem
    · have hb : (a.elem == k) = true := by simp [h.symm]
      simp [h, hb]; omega
    · have hb : (a.elem == k) = false := by
        simp only [beq_eq_false_iff_ne, ne_eq]
        exact fun he => h he.symm
      simp [h, hb]

theorem statValue_rawStats (atoms : List Atom) (k : String) :
    statValue (rawStats atoms) k = atoms.countP (fun a => a.elem == k) := by
  have := statValue_foldl_bump k atoms []
  simpa [rawStats, statValue] using this

theorem keys_bumpStat (e : String) :
    ∀ st : List (String × Nat),
      (bumpStat st e).map Prod.fst =
        if e ∈ st.map Prod.fst then st.map Prod.fst else st.map Prod.fst ++ [e]
  | [] => by simp [bumpStat]
  | (k1, n1) :: rest => by
    by_cases h1 : k1 = e
    · subst h1; simp [bumpStat]
    · have h2 : ¬ e = k1 := fun he => h1 he.symm
      by_cases h3 : e ∈ rest.map Prod.fst
      · simp [bumpStat, h1, h2, h3, keys_bumpStat e rest]
      · simp [bumpStat, h1, h2, h3, keys_bumpStat e rest]

theorem nodup_keys_bumpStat (e : String) (st : List (String × Nat))
    (h : (st.map Prod.fst).Nodup) : ((bumpStat st e).map Prod.fst).Nodup := by
  rw [keys_bumpStat]
  by_cases hm : e ∈ st.map Prod.fst
  · simpa [hm] using h
  · simp [hm, List.nodup_append, h]

theorem nodup_keys_foldl_bump :
    ∀ (atoms : List Atom) (st : List (String × Nat)),
      (st.map Prod.fst).Nodup →
      ((atoms.foldl (fun st a => bumpStat st a.elem) st).map Prod.fst).Nodup
  | [], _, h => h
  | a :: rest, st, h =>
    nodup_keys_foldl_bump rest (bumpStat st a.elem) (nodup_keys_bumpStat a.elem st h)

theorem nodup_keys_rawStats (atoms : List Atom) :
    ((rawStats atoms).map Prod.fst).Nodup :=
  nodup_keys_foldl_bump atoms [] (by simp)

theorem map_statValue_of_nodup :
    ∀ st : List (String × Nat), (st.map Prod.fst).Nodup →
      (st.map Prod.fst).map (statValue st) = st.map Prod.snd
  | [], _ => rfl
  | (k1, n1) :: rest, h => by
    simp only [List.map_cons, List.nodup_cons, List.mem_map] at h ⊢
    have hhead : statValue ((k1, n1) :: rest) k1 = n1 := by simp [statValue]
    have hcongr : ∀ k ∈ rest.map Prod.fst,
        statValue ((k1, n1) :: rest) k = statValue rest k := by
      intro k hk
      have hne : ¬ k1 = k := by
        intro he
        subst he
        obtain ⟨p, hp, hfst⟩ := List.mem_map.mp hk
        exact h.1 ⟨p, hp, hfst⟩
      simp [statValue, hne]
    rw [hhead, List.map_congr_left hcongr, map_statValue_of_nodup rest h.2]

theorem snd_sum_bumpStat (e : String) :
    ∀ st : List (String × Nat),
      ((bumpStat st e).map Prod.snd).sum = (st.map Prod.snd).sum + 1
  | [] => by simp [bumpStat]
  | (k1, n1) :: rest => by
    by_cases h1 : k1 = e
    · subst h1; simp [bumpStat]; omega
    · simp [bumpStat, h1, snd_sum_bumpStat e rest]; omega

theorem snd_sum_foldl_bump :
    ∀ (atoms : List Atom) (st : List (String × Nat)),
      (((atoms.foldl (fun st a => bumpStat st a.elem) st)).map Prod.snd).sum
        = (st.map Prod.snd).sum + atoms.length
  | [], st => by simp
  | a :: rest, st => by
    simp only [List.foldl_cons, List.length_cons]
    rw [snd_sum_foldl_bump rest (bumpStat st a.elem), snd_sum_bumpStat]
    omega

theorem snd_sum_rawStats (atoms : List Atom) :
    ((rawStats atoms).map Prod.snd).sum = atoms.length := by
  have := snd_sum_foldl_bump atoms []
  simpa [rawStats] using this

theorem keys_sortStats (st : List (String × Nat)) :
    (sortStats st).map Prod.fst = (st.map Prod.fst).insertionSort strLe := by
  unfold sortStats
  rw [List.map_map]
  rw [show (Prod.fst ∘ fun k => (k, statValue st k)) = id from rfl, List.map_id]

theorem mem_sortStats (st : List (String × Nat)) (p : String × Nat)
    (hp : p ∈ sortStats st) : p.2 = statValue st p.1 := by
  simp only [sortStats, List.mem_map] at hp
  obtain ⟨k, _, rfl⟩ := hp
  rfl

theorem snd_sum_sortStats (st : List (String × Nat))
    (h : (st.map Prod.fst).Nodup) :
    ((sortStats st).map Prod.snd).sum = (st.map Prod.snd).sum := by
  have hperm : ((st.map Prod.fst).insertionSort strLe).Perm (st.map Prod.fst) :=
    List.perm_insertionSort strLe (st.map Prod.fst)
  have hmap : (((st.map Prod.fst).insertionSort strLe).map (statValue st)).Perm
      ((st.map Prod.fst).map (statValue st)) := hperm.map (statValue st)
  have : ((sortStats st).map Prod.snd)
      = ((st.map Prod.fst).insertionSort strLe).map (statValue st) := by
    simp [sortStats, List.map_map, Function.comp]
  rw [this, hmap.sum_eq, map_statValue_of_nodup st h]

/-! ### Claim C10: consistency of `atomStats` with `atomsInfo` -/

/-- C10: after every successful run of `extractAtomInfo`, `atomStats` is
consistent with `atomsInfo`: its keys are strictly ascending in the
lexicographic string order used by the key sort (and hence duplicate
free), each per-element count equals the number of `AtomInfo` entries
carrying that element, and the counts sum to the length of `atomsInfo`. -/
theorem claim_C10_stats_consistent (atoms : List Atom) :
    ((extractStats atoms).map Prod.fst).Sorted strLe
    ∧ ((extractStats atoms).map Prod.fst).Nodup
    ∧ (∀ p ∈ extractStats atoms,
        p.2 = (extractInfos atoms).countP (fun i => i.element == p.1))
    ∧ ((extractStats atoms).map Prod.snd).sum = (extractInfos atoms).length := by
  haveI : IsTotal String strLe := ⟨strLe_total⟩
  haveI : IsTrans String strLe := ⟨strLe_trans⟩
  refine ⟨?_, ?_, ?_, ?_⟩
  · rw [extractStats, keys_sortStats]
    exact List.sorted_insertionSort strLe _
  · rw [extractStats, keys_sortStats]
    exact ((List.perm_insertionSort strLe _).nodup_iff).mpr (nodup_keys_rawStats atoms)
  · intro p hp
    rw [mem_sortStats (rawStats atoms) p hp, statValue_rawStats]
    simp [extractInfos, List.countP_map, Function.comp_def, mkAtomInfo]
  · rw [extractStats, snd_sum_sortStats _ (nodup_keys_rawStats atoms),
      snd_sum_rawStats, extractInfos, List.length_map]

/-! ### Claim C3: totality of the element lookup -/

/-- C3: for every element symbol absent from the table, `getElementData`
returns the defined placeholder record (name "Unknown", the queried
symbol, atomic number 0, category "Unknown", neutral colour "#CCCCCC")
and never fails; for every symbol present, it returns that symbol's
table entry. -/
theorem claim_C3_element_lookup_total :
    (∀ symbol, elementData.find? (fun p => p.1 == symbol) = none →
      getElementData symbol =
        { name := "Unknown", symbol := symbol, atomicNumber := 0, atomicMass := 0,
          category := "Unknown", color := "#CCCCCC",
          electronConfiguration := "Unknown" })
    ∧ (∀ symbol e, elementData.find? (fun p => p.1 == symbol) = some e →
      getElementData symbol = e.2) := by
  constructor
  · intro symbol h
    simp [getElementData, h, defaultElement]
  · intro symbol e h
    simp [getElementData, h]

/-- Witness for C3: the unknown symbol "Xx" resolves to the placeholder
record and the known symbol "Fe" resolves to its table entry. -/
theorem claim_C3_element_lookup_total_witness :
    getElementData "Xx" =
      { name := "Unknown", symbol := "Xx", atomicNumber := 0, atomicMass := 0,
        category := "Unknown", color := "#CCCCCC",
        electronConfiguration := "Unknown" }
    ∧ getElementData "Fe" =
      { name := "Iron", symbol := "Fe", atomicNumber := 26,
        atomicMass := 55.845, category := "Transition Metal", color := "#E06633",
        electronConfiguration := "[Ar] 3d⁶ 4s²",
        electronegativity := some 1.83, ionizationEnergy := some 7.902 } :=
  ⟨claim_C3_element_lookup_total.1 "Xx" rfl,
   claim_C3_element_lookup_total.2 "Fe"
     ("Fe", { name := "Iron", symbol := "Fe", atomicNumber := 26,
              atomicMass := 55.845, category := "Transition Metal",
              color := "#E06633", electronConfiguration := "[Ar] 3d⁶ 4s²",
              electronegativity := some 1.83, ionizationEnergy := some 7.902 })
     rfl⟩

/-! ### Helper lemmas about the viewer operations -/

theorem mapfst_setStyleL (m : List (Atom × StyleSpec)) (sel : Sel) (st : StyleSpec) :
    (setStyleL m sel st).map Prod.fst = m.map Prod.fst := by
  simp only [setStyleL, List.map_map]
  refine List.map_congr_left fun p _ => ?_
  by_cases h : p.1.sel sel = true <;> simp [h]

theorem atoms_setStyle (v : Viewer) (sel : Sel) (st : StyleSpec) :
    (v.setStyle sel st).atoms = v.atoms := by
  simp [Viewer.setStyle, Viewer.atoms, mapfst_setStyleL]

theorem atoms_applyLoadColors (infos : List AtomInfo) :
    ∀ v : Viewer, (applyLoadColors v infos).atoms = v.atoms := by
  induction infos with
  | nil => intro v; rfl
  | cons i rest ih =>
    intro v
    show (applyLoadColors (v.setStyle _ _) rest).atoms = v.atoms
    rw [ih, atoms_setStyle]

theorem mapfst_applyUpdateColors (style : String) (infos : List AtomInfo) :
    ∀ m : List (Atom × StyleSpec),
      (applyUpdateColors style infos m).map Prod.fst = m.map Prod.fst := by
  induction infos with
  | nil => intro m; rfl
  | cons i rest ih =>
    intro m
    show (applyUpdateColors style rest _).map Prod.fst = m.map Prod.fst
    cases h : elemColorStyle style (getElementColor i.element) with
    | none => simp only [h]; exact ih m
    | some st => simp only [h]; rw [ih, mapfst_setStyleL]

/-! ### Field-preservation lemmas for the component steps -/

theorem startLoad_fields (s : CompState) :
    (startLoad s).viewer = s.viewer ∧ (startLoad s).atomsInfo = s.atomsInfo
    ∧ (startLoad s).atomStats = s.atomStats ∧ (startLoad s).destroyed = s.destroyed
    ∧ (startLoad s).mounted = s.mounted ∧ (startLoad s).currentAtom = s.currentAtom := by
  unfold startLoad
  by_cases h : (s.viewer.isNone || !truthyStr s.cifUrl) = true
  · simp [h]
  · cases hg : getStructureUrl s.cifUrl <;> simp [h, hg]

theorem updateStyle_fields (s : CompState) :
    (updateStyle s).atomsInfo = s.atomsInfo ∧ (updateStyle s).atomStats = s.atomStats
    ∧ (updateStyle s).destroyed = s.destroyed ∧ (updateStyle s).mounted = s.mounted
    ∧ (updateStyle s).currentAtom = s.currentAtom ∧ (updateStyle s).pending = s.pending
    ∧ (updateStyle s).loading = s.loading ∧ (updateStyle s).error = s.error
    ∧ modelAtoms (updateStyle s) = modelAtoms s := by
  unfold updateStyle
  cases hv : s.viewer with
  | none => simp [modelAtoms, hv]
  | some v0 =>
    by_cases hc : s.useElementColors = true
      <;> by_cases hu : s.showUnitCell = true
      <;> by_cases hl : s.showAtomLabels = true
      <;> simp [hv, hc, hu, hl, modelAtoms, Viewer.atoms, Viewer.addUnitCell,
        Viewer.addLabels, mapfst_applyUpdateColors, mapfst_setStyleL]

theorem atoms_addUnitCell (v : Viewer) : (v.addUnitCell).atoms = v.atoms := rfl

theorem atoms_addLabels (v : Viewer) (f a : String) : (v.addLabels f a).atoms = v.atoms := rfl

theorem atoms_condUnitCell (c : Bool) (v : Viewer) :
    (if c = true then v.addUnitCell else v).atoms = v.atoms := by
  cases c <;> rfl

theorem atoms_condColors (c : Bool) (v : Viewer) (infos : List AtomInfo) :
    (if c = true then applyLoadColors v infos else v).atoms = v.atoms := by
  cases c <;> simp [atoms_applyLoadColors]

theorem mapfst_pairs (atoms : List Atom) :
    (atoms.map (fun a => (a, ({} : StyleSpec)))).map Prod.fst = atoms := by
  rw [List.map_map, show (Prod.fst ∘ fun a => (a, ({} : StyleSpec))) = id from rfl,
    List.map_id]

theorem atomState_transfer {t u : CompState}
    (hv : t.viewer = u.viewer) (hai : t.atomsInfo = u.atomsInfo)
    (hst : t.atomStats = u.atomStats) (hd : t.destroyed = u.destroyed)
    (h : atomStateMatchesViewer u) : atomStateMatchesViewer t := by
  intro hdf
  have hm : modelAtoms t = modelAtoms u := by unfold modelAtoms; rw [hv]
  obtain ⟨e1, e2⟩ := h (hd.symm.trans hdf)
  constructor
  · rw [hai, hm]; exact e1
  · rw [hst, hm]; exact e2

theorem preMount_transfer {t u : CompState}
    (hv : t.viewer = u.viewer) (hai : t.atomsInfo = u.atomsInfo)
    (hst : t.atomStats = u.atomStats) (hm : t.mounted = u.mounted)
    (h : preMountClean u) : preMountClean t := by
  intro hmf
  obtain ⟨a, b, c⟩ := h (hm.symm.trans hmf)
  exact ⟨hv.trans a, hai.trans b, hst.trans c⟩

theorem loadSuccess_fields (parse : String → List Atom) (s : CompState)
    (cifData : String) (v0 : Viewer) (hv : s.viewer = some v0) :
    (loadSuccess parse s cifData).atomsInfo = extractInfos (parse cifData)
    ∧ (loadSuccess parse s cifData).atomStats = extractStats (parse cifData)
    ∧ modelAtoms (loadSuccess parse s cifData) = parse cifData
    ∧ (loadSuccess parse s cifData).destroyed = s.destroyed
    ∧ (loadSuccess parse s cifData).mounted = s.mounted
    ∧ (loadSuccess parse s cifData).pending = s.pending
    ∧ (loadSuccess parse s cifData).loading = false
    ∧ (loadSuccess parse s cifData).error = s.error
    ∧ (loadSuccess parse s cifData).cifUrl = s.cifUrl
    ∧ (∃ v7, (loadSuccess parse s cifData).viewer = some v7 ∧ v7.clickable = true) := by
  unfold loadSuccess
  rw [hv]
  have hatoms :
      ((({ v0.clear with background := s.backgroundColor }).addModel (parse cifData)).atoms)
        = parse cifData := by
    simp only [Viewer.clear, Viewer.addModel, Viewer.atoms, List.nil_append]
    exact mapfst_pairs (parse cifData)
  refine ⟨?_, ?_, ?_, rfl, rfl, rfl, rfl, rfl, rfl, ⟨_, rfl, rfl⟩⟩
  · simp [hatoms]
  · simp [hatoms]
  · simp only [modelAtoms]
    show (Viewer.atoms _) = parse cifData
    rw [show ∀ v6 : Viewer, ({ v6 with clickable := true } : Viewer).atoms = v6.atoms
        from fun _ => rfl]
    rw [atoms_condUnitCell, atoms_condColors, atoms_setStyle, hatoms]

theorem atomState_transfer_model {t u : CompState}
    (hm : modelAtoms t = modelAtoms u) (hai : t.atomsInfo = u.atomsInfo)
    (hst : t.atomStats = u.atomStats) (hd : t.destroyed = u.destroyed)
    (h : atomStateMatchesViewer u) : atomStateMatchesViewer t := by
  intro hdf
  obtain ⟨e1, e2⟩ := h (hd.symm.trans hdf)
  constructor
  · rw [hai, hm]; exact e1
  · rw [hst, hm]; exact e2

theorem extractInfos_nil : extractInfos [] = [] := rfl

theorem extractStats_nil : extractStats [] = [] := rfl

theorem settleLoad_skip (parse : String → List Atom) (s : CompState) (id : Nat)
    (outcome : FetchOutcome)
    (hp : (s.pending.find? (fun p => p.1 == id)).isNone = true) :
    settleLoad parse s id outcome = s := by
  unfold settleLoad
  rw [hp]
  simp

theorem settleLoad_ok (parse : String → List Atom) (s : CompState) (id : Nat)
    (outcome : FetchOutcome) (cifData : String)
    (hp : (s.pending.find? (fun p => p.1 == id)).isNone = false)
    (hr : fetchResult outcome >>= validateCif = .ok cifData) :
    settleLoad parse s id outcome =
      loadSuccess parse { s with pending := s.pending.filter (fun p => p.1 != id) }
        cifData := by
  unfold settleLoad
  rw [hp, hr]
  simp

theorem settleLoad_error (parse : String → List Atom) (s : CompState) (id : Nat)
    (outcome : FetchOutcome) (msg : String)
    (hp : (s.pending.find? (fun p => p.1 == id)).isNone = false)
    (hr : fetchResult outcome >>= validateCif = .error msg) :
    settleLoad parse s id outcome =
      { s with pending := s.pending.filter (fun p => p.1 != id),
               error := some ("Failed to load structure: " ++ msg),
               loading := false } := by
  unfold settleLoad
  rw [hp, hr]
  simp

theorem loadSuccess_noViewer (parse : String → List Atom) (s : CompState)
    (cifData : String) (hv : s.viewer = none) :
    loadSuccess parse s cifData = s := by
  unfold loadSuccess
  rw [hv]

theorem updateStyle_noViewer (s : CompState) (hv : s.viewer = none) :
    updateStyle s = s := by
  unfold updateStyle
  rw [hv]

theorem updateStyle_viewer_some (s : CompState) (v : Viewer) (hv : s.viewer = some v) :
    ∃ v4, (updateStyle s).viewer = some v4 := by
  unfold updateStyle
  rw [hv]
  exact ⟨_, rfl⟩

theorem clickAtom_noViewer (s : CompState) (serial : Nat) (hv : s.viewer = none) :
    clickAtom s serial = s := by
  unfold clickAtom
  rw [hv]

theorem clickAtom_notClickable (s : CompState) (serial : Nat) (v : Viewer)
    (hv : s.viewer = some v) (hc : v.clickable = false) :
    clickAtom s serial = s := by
  unfold clickAtom
  rw [hv]
  simp [hc]

theorem clickAtom_noAtom (s : CompState) (serial : Nat) (v : Viewer)
    (hv : s.viewer = some v) (hc : v.clickable = true)
    (hf : v.atoms.find? (fun a => a.serial == serial) = none) :
    clickAtom s serial = s := by
  unfold clickAtom
  rw [hv]
  simp [hc, hf]

theorem clickAtom_found (s : CompState) (serial : Nat) (v : Viewer) (atom : Atom)
    (v2 : Viewer) (hv : s.viewer = some v) (hc : v.clickable = true)
    (hf : v.atoms.find? (fun a => a.serial == serial) = some atom)
    (hv2 : (updateStyle { s with currentAtom := some (mkAtomInfo atom) }).viewer
      = some v2) :
    clickAtom s serial =
      { updateStyle { s with currentAtom := some (mkAtomInfo atom) } with
        viewer := some (v2.setStyle (.serial serial) highlightStyle) } := by
  unfold clickAtom
  rw [hv] at hv2 ⊢
  simp only [hc, Bool.not_true, Bool.false_eq_true, if_false, hf]
  rw [hv2]

theorem inv_step (parse : String → List Atom) (s : CompState) (e : Event)
    (h1 : atomStateMatchesViewer s) (h2 : preMountClean s) :
    atomStateMatchesViewer (step parse s e) ∧ preMountClean (step parse s e) := by
  cases e with
  | mount outcome =>
    show atomStateMatchesViewer (initViewer s outcome)
      ∧ preMountClean (initViewer s outcome)
    unfold initViewer
    by_cases hm : s.mounted = true
    · simp only [hm, if_true]
      exact ⟨h1, h2⟩
    · have hm' : s.mounted = false := by simpa using hm
      obtain ⟨hve, hai, hst⟩ := h2 hm'
      simp only [hm', Bool.false_eq_true, if_false]
      cases outcome with
      | libFailed msg =>
        constructor
        · intro _
          constructor <;>
            simp [modelAtoms, hve, hai, hst, extractInfos_nil, extractStats_nil]
        · intro h; simp at h
      | createFailed msg =>
        constructor
        · intro _
          constructor <;>
            simp [modelAtoms, hve, hai, hst, extractInfos_nil, extractStats_nil]
        · intro h; simp at h
      | success =>
        have base1 : atomStateMatchesViewer
            { s with mounted := true, loading := true, error := none,
                     viewer := some (Viewer.create s.backgroundColor) } := by
          intro _
          constructor <;>
            simp [modelAtoms, Viewer.create, Viewer.atoms, hai, hst,
              extractInfos_nil, extractStats_nil]
        have base2 : preMountClean
            { s with mounted := true, loading := true, error := none,
                     viewer := some (Viewer.create s.backgroundColor) } := by
          intro h; simp at h
        by_cases ht : truthyStr s.cifUrl = true
        · simp only [ht, if_true]
          obtain ⟨f1, f2, f3, f4, f5, _⟩ := startLoad_fields
            { s with mounted := true, loading := true, error := none,
                     viewer := some (Viewer.create s.backgroundColor) }
          exact ⟨atomState_transfer f1 f2 f3 f4 base1,
                 preMount_transfer f1 f2 f3 f5 base2⟩
        · have ht' : truthyStr s.cifUrl = false := by simpa using ht
          simp only [ht', Bool.false_eq_true, if_false]
          exact ⟨atomState_transfer rfl rfl rfl rfl base1,
                 preMount_transfer rfl rfl rfl rfl base2⟩
  | refChange url =>
    show atomStateMatchesViewer (startLoad { s with cifUrl := url })
      ∧ preMountClean (startLoad { s with cifUrl := url })
    have b1 : atomStateMatchesViewer { s with cifUrl := url } :=
      atomState_transfer rfl rfl rfl rfl h1
    have b2 : preMountClean { s with cifUrl := url } :=
      preMount_transfer rfl rfl rfl rfl h2
    obtain ⟨f1, f2, f3, f4, f5, _⟩ := startLoad_fields { s with cifUrl := url }
    exact ⟨atomState_transfer f1 f2 f3 f4 b1, preMount_transfer f1 f2 f3 f5 b2⟩
  | fetchSettles id outcome =>
    show atomStateMatchesViewer (settleLoad parse s id outcome)
      ∧ preMountClean (settleLoad parse s id outcome)
    by_cases hp : ((s.pending.find? (fun p => p.1 == id)).isNone) = true
    · rw [settleLoad_skip parse s id outcome hp]
      exact ⟨h1, h2⟩
    · have hp' : (s.pending.find? (fun p => p.1 == id)).isNone = false := by
        simpa using hp
      have b1 : atomStateMatchesViewer
          { s with pending := s.pending.filter (fun p => p.1 != id) } :=
        atomState_transfer rfl rfl rfl rfl h1
      have b2 : preMountClean
          { s with pending := s.pending.filter (fun p => p.1 != id) } :=
        preMount_transfer rfl rfl rfl rfl h2
      cases hr : fetchResult outcome >>= validateCif with
      | error msg =>
        rw [settleLoad_error parse s id outcome msg hp' hr]
        exact ⟨atomState_transfer rfl rfl rfl rfl b1,
               preMount_transfer rfl rfl rfl rfl b2⟩
      | ok cifData =>
        rw [settleLoad_ok parse s id outcome cifData hp' hr]
        by_cases hvn : s.viewer = none
        · have hveq : ({ s with pending := s.pending.filter (fun p => p.1 != id) }
              : CompState).viewer = none := hvn
          rw [loadSuccess_noViewer parse _ cifData hveq]
          exact ⟨b1, b2⟩
        · obtain ⟨v0, hv⟩ := Option.ne_none_iff_exists'.mp hvn
          have hv1 : ({ s with pending := s.pending.filter (fun p => p.1 != id) }
              : CompState).viewer = some v0 := hv
          obtain ⟨g1, g2, g3, g4, g5, _⟩ :=
            loadSuccess_fields parse
              { s with pending := s.pending.filter (fun p => p.1 != id) } cifData v0 hv1
          constructor
          · intro _
            constructor
            · rw [g1, g3]
            · rw [g2, g3]
          · intro hmf
            rw [g5] at hmf
            obtain ⟨hnone, _, _⟩ := h2 hmf
            rw [hv] at hnone
            cases hnone
  | click serial =>
    show atomStateMatchesViewer (clickAtom s serial)
      ∧ preMountClean (clickAtom s serial)
    by_cases hvn : s.viewer = none
    · rw [clickAtom_noViewer s serial hvn]
      exact ⟨h1, h2⟩
    · obtain ⟨v, hv⟩ := Option.ne_none_iff_exists'.mp hvn
      by_cases hc : v.clickable = true
      · cases hf : v.atoms.find? (fun a => a.serial == serial) with
        | none =>
          rw [clickAtom_noAtom s serial v hv hc hf]
          exact ⟨h1, h2⟩
        | some atom =>
          have b1 : atomStateMatchesViewer
              { s with currentAtom := some (mkAtomInfo atom) } :=
            atomState_transfer rfl rfl rfl rfl h1
          obtain ⟨u1, u2, u3, u4, u5, u6, u7, u8, u9⟩ :=
            updateStyle_fields { s with currentAtom := some (mkAtomInfo atom) }
          have b2 : atomStateMatchesViewer
              (updateStyle { s with currentAtom := some (mkAtomInfo atom) }) :=
            atomState_transfer_model u9 u1 u2 u3 b1
          obtain ⟨v2, hv2⟩ := updateStyle_viewer_some
            { s with currentAtom := some (mkAtomInfo atom) } v hv
          rw [clickAtom_found s serial v atom v2 hv hc hf hv2]
          constructor
          · refine atomState_transfer_model ?_ ?_ ?_ ?_ b2
            · simp only [modelAtoms, hv2, atoms_setStyle]
            · rfl
            · rfl
            · rfl
          · intro hmf
            have hsm : s.mounted = false := u4.symm.trans hmf
            obtain ⟨hnone, _, _⟩ := h2 hsm
            rw [hv] at hnone
            cases hnone
      · have hc' : v.clickable = false := by simpa using hc
        rw [clickAtom_notClickable s serial v hv hc']
        exact ⟨h1, h2⟩
  | styleChange st =>
    show atomStateMatchesViewer (updateStyle { s with style := st })
      ∧ preMountClean (updateStyle { s with style := st })
    have b1 : atomStateMatchesViewer { s with style := st } :=
      atomState_transfer rfl rfl rfl rfl h1
    obtain ⟨u1, u2, u3, u4, u5, u6, u7, u8, u9⟩ :=
      updateStyle_fields { s with style := st }
    refine ⟨atomState_transfer_model u9 u1 u2 u3 b1, ?_⟩
    intro hmf
    rw [u4] at hmf
    obtain ⟨hnone, hb, hc2⟩ := h2 hmf
    have hvv : ({ s with style := st } : CompState).viewer = none := hnone
    rw [updateStyle_noViewer _ hvv]
    exact ⟨hnone, hb, hc2⟩
  | unmount =>
    show atomStateMatchesViewer (unmountComp s) ∧ preMountClean (unmountComp s)
    unfold unmountComp
    cases hv : s.viewer with
    | none =>
      constructor
      · intro hd; simp at hd
      · intro hmf
        obtain ⟨_, b, c⟩ := h2 hmf
        exact ⟨rfl, b, c⟩
    | some v =>
      constructor
      · intro hd; simp at hd
      · intro hmf
        obtain ⟨hnone, _, _⟩ := h2 hmf
        rw [hv] at hnone
        cases hnone

theorem inv_run (parse : String → List Atom) :
    ∀ (events : List Event) (s : CompState),
      atomStateMatchesViewer s → preMountClean s →
      atomStateMatchesViewer (run parse s events)
        ∧ preMountClean (run parse s events)
  | [], _, h1, h2 => ⟨h1, h2⟩
  | e :: rest, s, h1, h2 => by
    obtain ⟨g1, g2⟩ := inv_step parse s e h1 h2
    exact inv_run parse rest (step parse s e) g1 g2

/-! ### Claim C4: atom state always matches the active viewer -/

/-- C4: on every structure (re)load all prior atom state is cleared before
the new structure's atoms are extracted, so at no observable point of any
event trace does the component mix stale atom data with a newly loaded
structure: while it is not torn down, `atomsInfo` and `atomStats` are
always exactly the metadata extracted from the atoms loaded in the active
viewer instance. -/
theorem claim_C4_atom_state_matches_viewer (parse : String → List Atom)
    (url : Option String) (events : List Event) :
    atomStateMatchesViewer (run parse (initialState url) events) := by
  have hinit1 : atomStateMatchesViewer (initialState url) := by
    intro _
    exact ⟨rfl, rfl⟩
  have hinit2 : preMountClean (initialState url) := by
    intro _
    exact ⟨rfl, rfl, rfl⟩
  exact (inv_run parse events (initialState url) hinit1 hinit2).1

/-! ### Lemmas about starting and completing one load -/

theorem getStructureUrl_isSome (url : String) (hne : url ≠ "") :
    ∃ fullUrl, getStructureUrl (some url) = some fullUrl := by
  show ∃ fullUrl,
    (if url = "" then none
     else if strStartsWith url "http" then some url
     else if strStartsWith url "/api/structures/" then
       some ((if strEndsWith API_BASE_URL "/api" then strDropRight API_BASE_URL 4
              else stripApiTail API_BASE_URL) ++ url)
     else
       some (API_BASE_URL ++ "/structures/" ++ lastSlashComponent url))
      = some fullUrl
  rw [if_neg hne]
  by_cases h1 : strStartsWith url "http" = true
  · rw [if_pos h1]
    exact ⟨url, rfl⟩
  · rw [if_neg (by simpa using h1)]
    by_cases h2 : strStartsWith url "/api/structures/" = true
    · rw [if_pos h2]
      exact ⟨_, rfl⟩
    · rw [if_neg (by simpa using h2)]
      exact ⟨_, rfl⟩

theorem startLoad_started (s : CompState) (v : Viewer) (url : String)
    (hv : s.viewer = some v) (hu : s.cifUrl = some url) (hne : url ≠ "") :
    ∃ fullUrl,
      startLoad s = { s with loading := true, error := none,
                             pending := s.pending ++ [(s.nextId, fullUrl)],
                             nextId := s.nextId + 1 } := by
  obtain ⟨f, hf⟩ := getStructureUrl_isSome url hne
  refine ⟨f, ?_⟩
  unfold startLoad
  have hguard : (s.viewer.isNone || !truthyStr s.cifUrl) = false := by
    rw [hv, hu]
    simp [truthyStr, hne]
  rw [hguard]
  dsimp only
  rw [hu, hf]
  rfl

theorem find?_pending_append (l : List (Nat × String)) (id : Nat) (u : String) :
    ((l ++ [(id, u)]).find? (fun p => p.1 == id)).isNone = false := by
  rw [List.find?_append]
  cases h : l.find? (fun p => p.1 == id) <;> simp [h, List.find?]

theorem loadOnce_result (parse : String → List Atom) (s : CompState)
    (url body : String) (v : Viewer)
    (hv : s.viewer = some v) (hu : s.cifUrl = some url) (hne : url ≠ "")
    (hm : hasCifMarkers body = true) :
    (loadOnce parse s body).atomsInfo = extractInfos (parse body)
    ∧ (loadOnce parse s body).atomStats = extractStats (parse body)
    ∧ (loadOnce parse s body).cifUrl = s.cifUrl
    ∧ (∃ v2, (loadOnce parse s body).viewer = some v2 ∧ v2.clickable = true)
    ∧ (loadOnce parse s body).loading = false
    ∧ (loadOnce parse s body).error = none
    ∧ modelAtoms (loadOnce parse s body) = parse body := by
  obtain ⟨f, hf⟩ := startLoad_started s v url hv hu hne
  have hok : fetchResult (.response true 200 "OK" body) >>= validateCif = .ok body := by
    show validateCif body = .ok body
    simp [validateCif, hm]
  unfold loadOnce
  rw [hf]
  have hp : ((({ s with loading := true, error := none,
                        pending := s.pending ++ [(s.nextId, f)],
                        nextId := s.nextId + 1 } : CompState)).pending.find?
      (fun p => p.1 == s.nextId)).isNone = false := by
    exact find?_pending_append s.pending s.nextId f
  rw [settleLoad_ok parse _ s.nextId _ body hp hok]
  obtain ⟨g1, g2, g3, g4, g5, g6, g7, g8, g9, g10⟩ :=
    loadSuccess_fields parse
      { s with loading := true, error := none,
               pending := (s.pending ++ [(s.nextId, f)]).filter
                 (fun p => p.1 != s.nextId),
               nextId := s.nextId + 1 } body v hv
  exact ⟨g1, g2, g9, g10, g7, g8, g3⟩

/-! ### Claim C5: idempotence of repeated loads -/

/-- C5: for every valid structure reference (a non-empty reference whose
fetch resolves ok with text carrying the CIF markers), performing the
load twice in sequence yields the same `atomsInfo` (hence the same total
atom count) and the same per-element counts in `atomStats` both times. -/
theorem claim_C5_load_idempotent (parse : String → List Atom) (s : CompState)
    (url body : String) (v : Viewer)
    (hv : s.viewer = some v) (hu : s.cifUrl = some url) (hne : url ≠ "")
    (hm : hasCifMarkers body = true) :
    (loadOnce parse (loadOnce parse s body) body).atomsInfo
      = (loadOnce parse s body).atomsInfo
    ∧ (loadOnce parse (loadOnce parse s body) body).atomStats
      = (loadOnce parse s body).atomStats := by
  obtain ⟨a1, a2, a3, ⟨v2, hv2, _⟩, _⟩ := loadOnce_result parse s url body v hv hu hne hm
  obtain ⟨b1, b2, _⟩ :=
    loadOnce_result parse (loadOnce parse s body) url body v2 hv2 (a3.trans hu) hne hm
  exact ⟨b1.trans a1.symm, b2.trans a2.symm⟩

/-- Witness for C5: loading the concrete reference "m.cif" (resolving to a
one-Fe-atom structure) twice from a freshly mounted component gives the
same atom metadata and statistics both times. -/
theorem claim_C5_load_idempotent_witness :
    (loadOnce parseRace
        (loadOnce parseRace
          (run parseRace (initialState (some "m.cif")) [.mount .success])
          "data_ one")
        "data_ one").atomsInfo
      = (loadOnce parseRace
          (run parseRace (initialState (some "m.cif")) [.mount .success])
          "data_ one").atomsInfo
    ∧ (loadOnce parseRace
        (loadOnce parseRace
          (run parseRace (initialState (some "m.cif")) [.mount .success])
          "data_ one")
        "data_ one").atomStats
      = (loadOnce parseRace
          (run parseRace (initialState (some "m.cif")) [.mount .success])
          "data_ one").atomStats :=
  claim_C5_load_idempotent parseRace
    (run parseRace (initialState (some "m.cif")) [.mount .success])
    "m.cif" "data_ one" (Viewer.create "#ffffff") rfl rfl (by decide) (by decide)

/-! ### Claim C2: error conditions of a settling load -/

theorem find?_after_filter (l : List (Nat × String)) (id : Nat) :
    ((l.filter (fun p => p.1 != id)).find? (fun p => p.1 == id)) = none := by
  rw [List.find?_eq_none]
  intro x hx
  have hne := (List.mem_filter.mp hx).2
  simpa using hne

theorem loadBody_error_iff (o : FetchOutcome) :
    (c2Cond o || isNetFailure o) = true
      ↔ ∃ msg, fetchResult o >>= validateCif = .error msg := by
  cases o with
  | timeout =>
    simp [c2Cond, isNetFailure, fetchResult, Bind.bind, Except.bind]
  | netError msg =>
    simp [c2Cond, isNetFailure, fetchResult, Bind.bind, Except.bind]
  | response ok status stxt body =>
    cases ok <;> cases hmk : hasCifMarkers body <;>
      simp [c2Cond, isNetFailure, fetchResult, validateCif, hmk,
        Bind.bind, Except.bind]

/-- C2 (amended): when the suspended `loadStructure` is resumed by its
fetch settling, it ends in the error state exactly when the outcome is
the 15-second timeout abort, a network rejection of the fetch itself, a
non-ok HTTP response, or fetched text lacking both CIF markers; otherwise
it succeeds and the new structure's atoms are extracted.  Loading always
terminates, the missing-marker failure carries the descriptive
invalid-format message, and the settled fetch is removed from the
in-flight set, so no later settlement of that fetch can mutate state. -/
theorem claim_C2_load_error_conditions (parse : String → List Atom)
    (s : CompState) (id : Nat) (o : FetchOutcome) (v : Viewer)
    (hv : s.viewer = some v) (he : s.error = none)
    (hp : (s.pending.find? (fun p => p.1 == id)).isNone = false) :
    FETCH_TIMEOUT_MS = 15000
    ∧ ((settleLoad parse s id o).error ≠ none ↔ (c2Cond o || isNetFailure o) = true)
    ∧ (settleLoad parse s id o).loading = false
    ∧ (∀ status stxt body, o = .response true status stxt body →
        hasCifMarkers body = false →
        (settleLoad parse s id o).error
          = some "Failed to load structure: Response is not a valid CIF file")
    ∧ (∀ status stxt body, o = .response true status stxt body →
        hasCifMarkers body = true →
        (settleLoad parse s id o).atomsInfo = extractInfos (parse body))
    ∧ (∀ o2, settleLoad parse (settleLoad parse s id o) id o2
        = settleLoad parse s id o) := by
  cases hr : fetchResult o >>= validateCif with
  | error msg =>
    rw [settleLoad_error parse s id o msg hp hr]
    refine ⟨rfl, ?_, rfl, ?_, ?_, ?_⟩
    · constructor
      · intro _
        exact (loadBody_error_iff o).mpr ⟨msg, hr⟩
      · intro _
        simp
    · intro status stxt body ho hmk
      subst ho
      have hcomp : fetchResult (.response true status stxt body) >>= validateCif
          = .error "Response is not a valid CIF file" := by
        show validateCif body = _
        simp [validateCif, hmk]
      rw [hcomp] at hr
      cases hr
      rfl
    · intro status stxt body ho hmk
      subst ho
      have hcomp : fetchResult (.response true status stxt body) >>= validateCif
          = .ok body := by
        show validateCif body = _
        simp [validateCif, hmk]
      rw [hcomp] at hr
      cases hr
    · intro o2
      apply settleLoad_skip
      simp [find?_after_filter]
  | ok cifData =>
    rw [settleLoad_ok parse s id o cifData hp hr]
    obtain ⟨g1, g2, g3, g4, g5, g6, g7, g8, g9, g10⟩ := loadSuccess_fields parse
      { s with pending := s.pending.filter (fun p => p.1 != id) } cifData v hv
    refine ⟨rfl, ?_, g7, ?_, ?_, ?_⟩
    · constructor
      · intro hne
        exact absurd (g8.trans he) hne
      · intro hcond
        obtain ⟨msg, hmsg⟩ := (loadBody_error_iff o).mp hcond
        rw [hr] at hmsg
        cases hmsg
    · intro status stxt body ho hmk
      subst ho
      have hcomp : fetchResult (.response true status stxt body) >>= validateCif
          = .error "Response is not a valid CIF file" := by
        show validateCif body = _
        simp [validateCif, hmk]
      rw [hcomp] at hr
      cases hr
    · intro status stxt body ho hmk
      subst ho
      have hcomp : fetchResult (.response true status stxt body) >>= validateCif
          = .ok body := by
        show validateCif body = _
        simp [validateCif, hmk]
      rw [hcomp] at hr
      cases hr
      exact g1
    · intro o2
      apply settleLoad_skip
      rw [g6]
      simp [find?_after_filter]

/-- Refutation of C2 as stated: a network rejection of the fetch (outcome
neither the timeout, nor a non-ok response, nor missing markers) still
ends the load in the error state, so "exactly when" fails. -/
theorem claim_C2_counterexample :
    c2Cond (.netError "Failed to fetch") = false
    ∧ isNetFailure (.netError "Failed to fetch") = true
    ∧ (run parseRace (initialState (some "m.cif"))
        [.mount .success, .fetchSettles 0 (.netError "Failed to fetch")]).error
      = some "Failed to load structure: Failed to fetch" := by
  exact ⟨rfl, rfl, rfl⟩

/-- Witness for C2 (amended): at a concrete in-flight state, a timeout
outcome yields the error state and an ok CIF response yields success. -/
theorem claim_C2_load_error_conditions_witness :
    ((settleLoad parseRace
        (run parseRace (initialState (some "m.cif")) [.mount .success])
        0 .timeout).error ≠ none
      ↔ (c2Cond .timeout || isNetFailure .timeout) = true)
    ∧ (settleLoad parseRace
        (run parseRace (initialState (some "m.cif")) [.mount .success])
        0 .timeout).loading = false :=
  ⟨(claim_C2_load_error_conditions parseRace
      (run parseRace (initialState (some "m.cif")) [.mount .success])
      0 .timeout (Viewer.create "#ffffff") rfl rfl rfl).2.1,
   (claim_C2_load_error_conditions parseRace
      (run parseRace (initialState (some "m.cif")) [.mount .success])
      0 .timeout (Viewer.create "#ffffff") rfl rfl rfl).2.2.1⟩

/-! ### Claim C9: containment of viewer-core failures -/

theorem filter_of_find?_none (l : List (Nat × String)) (id : Nat)
    (h : l.find? (fun p => p.1 == id) = none) :
    l.filter (fun p => p.1 != id) = l := by
  rw [List.filter_eq_self]
  intro a ha
  have := List.find?_eq_none.mp h a ha
  simpa using this

theorem loadSuccess_pending (parse : String → List Atom) (s : CompState)
    (cifData : String) :
    (loadSuccess parse s cifData).pending = s.pending := by
  unfold loadSuccess
  cases s.viewer <;> rfl

/-- C9: every failure of the viewer core is contained.  A failing load
body (fetch failure or format failure) never escapes `settleLoad`: it is
recorded in the single user-visible error slot with `loading` cleared,
and this holds for every prior state, so a later error overwrites an
earlier one (latest wins).  Library-load and viewer-construction failures
of `initViewer` are likewise mapped into the slot.  Settling a load never
registers a new fetch: `pending` only shrinks, so no failed load is
retried without a new structure reference. -/
theorem claim_C9_error_containment (parse : String → List Atom) :
    (∀ (s : CompState) (id : Nat) (o : FetchOutcome) (msg : String),
      (s.pending.find? (fun p => p.1 == id)).isNone = false →
      fetchResult o >>= validateCif = .error msg →
      (settleLoad parse s id o).error = some ("Failed to load structure: " ++ msg)
        ∧ (settleLoad parse s id o).loading = false)
    ∧ (∀ (s : CompState) (msg : String), s.mounted = false →
        (initViewer s (.libFailed msg)).error
            = some ("Failed to load 3DMol.js: " ++ msg)
          ∧ (initViewer s (.libFailed msg)).loading = false)
    ∧ (∀ (s : CompState) (msg : String), s.mounted = false →
        (initViewer s (.createFailed msg)).error
            = some ("Failed to create 3D viewer: " ++ msg)
          ∧ (initViewer s (.createFailed msg)).loading = false)
    ∧ (∀ (s : CompState) (id : Nat) (o : FetchOutcome),
        (settleLoad parse s id o).pending
          = s.pending.filter (fun p => p.1 != id)) := by
  refine ⟨?_, ?_, ?_, ?_⟩
  · intro s id o msg hp hr
    rw [settleLoad_error parse s id o msg hp hr]
    exact ⟨rfl, rfl⟩
  · intro s msg hm
    unfold initViewer
    rw [hm]
    exact ⟨rfl, rfl⟩
  · intro s msg hm
    unfold initViewer
    rw [hm]
    exact ⟨rfl, rfl⟩
  · intro s id o
    by_cases hp : (s.pending.find? (fun p => p.1 == id)).isNone = true
    · rw [settleLoad_skip parse s id o hp]
      exact (filter_of_find?_none s.pending id
        (Option.isNone_iff_eq_none.mp hp)).symm
    · have hp' : (s.pending.find? (fun p => p.1 == id)).isNone = false := by
        simpa using hp
      cases hr : fetchResult o >>= validateCif with
      | error msg =>
        rw [settleLoad_error parse s id o msg hp' hr]
      | ok cifData =>
        rw [settleLoad_ok parse s id o cifData hp' hr, loadSuccess_pending]

/-- Witness for C9: a concrete network failure lands in the error slot
with loading cleared, a concrete library failure lands in the slot, and a
concrete settlement only removes its own fetch from the in-flight set. -/
theorem claim_C9_error_containment_witness :
    (settleLoad parseRace
        (run parseRace (initialState (some "m.cif")) [.mount .success])
        0 (.netError "boom")).error
      = some ("Failed to load structure: " ++ "boom")
    ∧ (initViewer (initialState (some "m.cif")) (.libFailed "cdn down")).error
      = some ("Failed to load 3DMol.js: " ++ "cdn down")
    ∧ (settleLoad parseRace
        (run parseRace (initialState (some "m.cif")) [.mount .success])
        0 (.netError "boom")).pending
      = (run parseRace (initialState (some "m.cif"))
          [.mount .success]).pending.filter (fun p => p.1 != 0) :=
  ⟨((claim_C9_error_containment parseRace).1
      (run parseRace (initialState (some "m.cif")) [.mount .success])
      0 (.netError "boom") "boom" rfl rfl).1,
   ((claim_C9_error_containment parseRace).2.1
      (initialState (some "m.cif")) "cdn down" rfl).1,
   (claim_C9_error_containment parseRace).2.2.2
      (run parseRace (initialState (some "m.cif")) [.mount .success])
      0 (.netError "boom")⟩

/-! ### Claim C7: idempotence of style reapplication -/

theorem setStyleL_all_eq (m : List (Atom × StyleSpec)) (st : StyleSpec) :
    setStyleL m .all st = (m.map Prod.fst).map (fun a => (a, st)) := by
  simp [setStyleL, Atom.sel, List.map_map]

theorem updateStyle_controls (s : CompState) :
    (updateStyle s).style = s.style
    ∧ (updateStyle s).useElementColors = s.useElementColors
    ∧ (updateStyle s).showUnitCell = s.showUnitCell
    ∧ (updateStyle s).showAtomLabels = s.showAtomLabels
    ∧ (updateStyle s).backgroundColor = s.backgroundColor := by
  unfold updateStyle
  cases s.viewer <;> exact ⟨rfl, rfl, rfl, rfl, rfl⟩

theorem updateStyle_model (s : CompState) (v0 : Viewer) (hv : s.viewer = some v0) :
    viewerModelOf (updateStyle s)
      = (if s.useElementColors then
          applyUpdateColors s.style s.atomsInfo
            (setStyleL v0.model .all (styleObjFor s.style))
        else setStyleL v0.model .all (styleObjFor s.style)) := by
  unfold updateStyle viewerModelOf
  rw [hv]
  by_cases hu : s.showUnitCell = true <;> by_cases hl : s.showAtomLabels = true <;>
    simp [hu, hl, Viewer.addUnitCell, Viewer.addLabels]

theorem updateStyle_background (s : CompState) (v0 : Viewer)
    (hv : s.viewer = some v0) :
    viewerBackgroundOf (updateStyle s) = s.backgroundColor := by
  unfold updateStyle viewerBackgroundOf
  rw [hv]

theorem updateStyle_overlays_mem (s : CompState) (v0 : Viewer)
    (hv : s.viewer = some v0) (o : Overlay) :
    o ∈ viewerOverlaysOf (updateStyle s)
      ↔ (o ∈ v0.overlays
         ∨ (s.showUnitCell = true ∧ o = .unitCell)
         ∨ (s.showAtomLabels = true ∧ o = .labels "12px Arial" "center")) := by
  unfold updateStyle viewerOverlaysOf
  rw [hv]
  by_cases hu : s.showUnitCell = true <;> by_cases hl : s.showAtomLabels = true <;>
    simp [hu, hl, Viewer.addUnitCell, Viewer.addLabels, or_assoc]

set_option maxHeartbeats 1000000 in
/-- C7: applying the current render style twice in succession (two
`updateStyle` calls with unchanged style, colour, unit-cell and label
settings) produces the same visual result as applying it once: the same
per-atom style assignment, the same background, and the same set of
overlay directives. -/
theorem claim_C7_update_style_idempotent (s : CompState) :
    sameVisual (updateStyle (updateStyle s)) (updateStyle s) := by
  by_cases hvn : s.viewer = none
  · rw [updateStyle_noViewer s hvn, updateStyle_noViewer s hvn]
    exact ⟨rfl, rfl, fun _ => Iff.rfl⟩
  · obtain ⟨v0, hv⟩ := Option.ne_none_iff_exists'.mp hvn
    obtain ⟨v4, hv4⟩ := updateStyle_viewer_some s v0 hv
    obtain ⟨c1, c2, c3, c4, c5⟩ := updateStyle_controls s
    obtain ⟨u1, _, _, _, _, _, _, _, _⟩ := updateStyle_fields s
    have hm1 := updateStyle_model s v0 hv
    have hmod4 : viewerModelOf (updateStyle s) = v4.model := by
      unfold viewerModelOf
      rw [hv4]
    have hfst : v4.model.map Prod.fst = v0.model.map Prod.fst := by
      rw [← hmod4, hm1]
      by_cases hc : s.useElementColors = true <;>
        simp [hc, mapfst_applyUpdateColors, mapfst_setStyleL]
    have hstyleall : setStyleL v4.model .all (styleObjFor s.style)
        = setStyleL v0.model .all (styleObjFor s.style) := by
      rw [setStyleL_all_eq, setStyleL_all_eq, hfst]
    have hm2 : viewerModelOf (updateStyle (updateStyle s))
        = viewerModelOf (updateStyle s) := by
      rw [updateStyle_model (updateStyle s) v4 hv4, hm1, c1, c2, u1, hstyleall]
    have hbg : viewerBackgroundOf (updateStyle (updateStyle s))
        = viewerBackgroundOf (updateStyle s) := by
      rw [updateStyle_background (updateStyle s) v4 hv4, c5,
        updateStyle_background s v0 hv]
    refine ⟨hm2, hbg, ?_⟩
    intro o
    have e1 := updateStyle_overlays_mem s v0 hv o
    have e2 := updateStyle_overlays_mem (updateStyle s) v4 hv4 o
    rw [c3, c4] at e2
    have e3 : o ∈ v4.overlays ↔ o ∈ viewerOverlaysOf (updateStyle s) := by
      unfold viewerOverlaysOf
      rw [hv4]
    rw [e3, e1] at e2
    rw [e2, e1]
    tauto

/-! ### Claim C1: last-reference-wins is violated by the code -/

/-- C1 fails on the code: nothing guards against a stale load resuming
after a newer one.  In this trace the component mounts, the reference
becomes "u1.cif" (fetch 0 starts), then "u2.cif" (fetch 1 starts) while
fetch 0 is still in flight; fetch 1 finishes first, then fetch 0
finishes.  Afterwards `cifUrl` is the most recent reference "u2.cif",
whose structure is a lone O atom, yet the atom state shows u1's lone Fe
atom: the earlier reference superseded the later one. -/
theorem claim_C1_last_reference_loses :
    (run parseRace (initialState none)
      [.mount .success, .refChange (some "u1.cif"), .refChange (some "u2.cif"),
       .fetchSettles 1 (.response true 200 "OK" "data_ two"),
       .fetchSettles 0 (.response true 200 "OK" "data_ one")]).cifUrl
      = some "u2.cif"
    ∧ (run parseRace (initialState none)
        [.mount .success, .refChange (some "u1.cif"), .refChange (some "u2.cif"),
         .fetchSettles 1 (.response true 200 "OK" "data_ two"),
         .fetchSettles 0 (.response true 200 "OK" "data_ one")]).atomStats
      = [("Fe", 1)]
    ∧ extractStats (parseRace "data_ two") = [("O", 1)]
    ∧ extractStats (parseRace "data_ one") = [("Fe", 1)] :=
  ⟨rfl, rfl, rfl, rfl⟩

/-! ### Claim C8: unmount does not cancel the in-flight fetch -/

/-- C8 fails on the code: the `onMount` cleanup only clears the viewer;
the in-flight fetch is not aborted, and its settlement after unmount
still mutates component state.  In this trace the component mounts with
reference "u1.cif" (fetch 0 starts) and unmounts immediately: the fetch
is still pending at teardown, and when it settles afterwards it fills
`atomsInfo` although the component is destroyed. -/
theorem claim_C8_unmount_leaves_fetch :
    (run parseRace (initialState (some "u1.cif"))
      [.mount .success, .unmount]).destroyed = true
    ∧ (run parseRace (initialState (some "u1.cif"))
        [.mount .success, .unmount]).pending
      = [(0, "http://localhost:5000/api/structures/u1.cif")]
    ∧ (run parseRace (initialState (some "u1.cif"))
        [.mount .success, .unmount]).atomsInfo = []
    ∧ (run parseRace (initialState (some "u1.cif"))
        [.mount .success, .unmount,
         .fetchSettles 0 (.response true 200 "OK" "data_ one")]).destroyed = true
    ∧ (run parseRace (initialState (some "u1.cif"))
        [.mount .success, .unmount,
         .fetchSettles 0 (.response true 200 "OK" "data_ one")]).atomsInfo
      = extractInfos (parseRace "data_ one")
    ∧ extractInfos (parseRace "data_ one") ≠ [] := by
  refine ⟨rfl, rfl, rfl, rfl, rfl, ?_⟩
  decide

/-! ### Claim C6: the Fe/O end-to-end scenario -/

theorem startLoad_controls (s : CompState) :
    (startLoad s).style = s.style
    ∧ (startLoad s).useElementColors = s.useElementColors := by
  unfold startLoad
  by_cases h : (s.viewer.isNone || !truthyStr s.cifUrl) = true
  · simp [h]
  · cases hg : getStructureUrl s.cifUrl <;> simp [h, hg]

theorem loadSuccess_controls (parse : String → List Atom) (s : CompState)
    (cifData : String) :
    (loadSuccess parse s cifData).style = s.style
    ∧ (loadSuccess parse s cifData).useElementColors = s.useElementColors := by
  unfold loadSuccess
  cases s.viewer <;> exact ⟨rfl, rfl⟩

theorem settleLoad_controls (parse : String → List Atom) (s : CompState)
    (id : Nat) (o : FetchOutcome) :
    (settleLoad parse s id o).style = s.style
    ∧ (settleLoad parse s id o).useElementColors = s.useElementColors := by
  by_cases hp : (s.pending.find? (fun p => p.1 == id)).isNone = true
  · rw [settleLoad_skip parse s id o hp]
    exact ⟨rfl, rfl⟩
  · have hp' : (s.pending.find? (fun p => p.1 == id)).isNone = false := by
      simpa using hp
    cases hr : fetchResult o >>= validateCif with
    | error msg =>
      rw [settleLoad_error parse s id o msg hp' hr]
      exact ⟨rfl, rfl⟩
    | ok cifData =>
      rw [settleLoad_ok parse s id o cifData hp' hr]
      exact loadSuccess_controls parse _ cifData

theorem loadOnce_controls (parse : String → List Atom) (s : CompState)
    (body : String) :
    (loadOnce parse s body).style = s.style
    ∧ (loadOnce parse s body).useElementColors = s.useElementColors := by
  obtain ⟨c1, c2⟩ := startLoad_controls s
  obtain ⟨d1, d2⟩ :=
    settleLoad_controls parse (startLoad s) s.nextId (.response true 200 "OK" body)
  exact ⟨d1.trans c1, d2.trans c2⟩

theorem updateStyle_clickable (t : CompState) (w : Viewer) (hv : t.viewer = some w)
    (v4 : Viewer) (hv4 : (updateStyle t).viewer = some v4) :
    v4.clickable = w.clickable := by
  unfold updateStyle at hv4
  rw [hv] at hv4
  have hinj := Option.some.inj hv4
  rw [← hinj]
  by_cases hu : t.showUnitCell = true <;> by_cases hl : t.showAtomLabels = true <;>
    simp [hu, hl, Viewer.addUnitCell, Viewer.addLabels]

theorem updateStyle_model_two (t : CompState) (w : Viewer) (fe o : Atom)
    (hv : t.viewer = some w) (hats : w.atoms = [fe, o])
    (hfe : fe.elem = "Fe") (ho : o.elem = "O")
    (hstyle : t.style = "ball and stick") (hcolors : t.useElementColors = true)
    (hinfo : t.atomsInfo = [mkAtomInfo fe, mkAtomInfo o]) :
    viewerModelOf (updateStyle t)
      = [(fe, { sphere := some { color := some "#E06633" },
                stick := some { color := some "#E06633" } }),
         (o, { sphere := some { color := some "#FF0D0D" },
               stick := some { color := some "#FF0D0D" } })] := by
  obtain ⟨fee, fx, fy, fz, fs⟩ := fe
  obtain ⟨oee, ox, oy, oz, os⟩ := o
  replace hfe : fee = "Fe" := hfe
  replace ho : oee = "O" := ho
  subst hfe
  subst ho
  rw [updateStyle_model t w hv, hstyle, hinfo, hcolors]
  simp only [if_true]
  rw [setStyleL_all_eq, show w.model.map Prod.fst = w.atoms from rfl, hats]
  have hcFe : getElementColor "Fe" = "#E06633" := rfl
  have hcO : getElementColor "O" = "#FF0D0D" := rfl
  have heFe : elemColorStyle "ball and stick" "#E06633"
      = some { sphere := some { color := some "#E06633" },
               stick := some { color := some "#E06633" } } := rfl
  have heO : elemColorStyle "ball and stick" "#FF0D0D"
      = some { sphere := some { color := some "#FF0D0D" },
               stick := some { color := some "#FF0D0D" } } := rfl
  simp only [List.map, applyUpdateColors, List.foldl, mkAtomInfo]
  rw [hcFe, hcO, heFe, heO]
  simp [setStyleL, Atom.sel]

set_option maxHeartbeats 1600000 in
/-- C6: after loading a structure holding exactly one Fe atom and one O
atom, `atomStats` equals `{Fe: 1, O: 1}`; clicking the Fe atom sets the
selected-atom state (`currentAtom`) to element Fe with its reference
atomic number 26; and the click highlight sits on at most one atom at
every point of the scenario: after the Fe click exactly the Fe atom
carries the highlight style, and a subsequent O click first resets all
atoms' styles and leaves exactly the O atom highlighted. -/
theorem claim_C6_fe_o_scenario (parse : String → List Atom) (s : CompState)
    (url body : String) (v : Viewer) (fe o : Atom)
    (hv : s.viewer = some v) (hu : s.cifUrl = some url) (hne : url ≠ "")
    (hm : hasCifMarkers body = true)
    (hparse : parse body = [fe, o])
    (hfe : fe.elem = "Fe") (hoel : o.elem = "O")
    (hser : fe.serial ≠ o.serial)
    (hstyle : s.style = "ball and stick") (hcolors : s.useElementColors = true) :
    (loadOnce parse s body).atomStats = [("Fe", 1), ("O", 1)]
    ∧ ((clickAtom (loadOnce parse s body) fe.serial).currentAtom.map
        (fun a => (a.element, a.atomicNumber))) = some ("Fe", 26)
    ∧ highlightedSerials (clickAtom (loadOnce parse s body) fe.serial)
      = [fe.serial]
    ∧ highlightedSerials
        (clickAtom (clickAtom (loadOnce parse s body) fe.serial) o.serial)
      = [o.serial] := by
  obtain ⟨fee, fx, fy, fz, fs⟩ := fe
  obtain ⟨oee, ox, oy, oz, os⟩ := o
  replace hfe : fee = "Fe" := hfe
  replace hoel : oee = "O" := hoel
  subst hfe
  subst hoel
  replace hser : fs ≠ os := hser
  dsimp only
  obtain ⟨a1, a2, a3, ⟨v1, hv1, hc1⟩, a5, a6, a7⟩ :=
    loadOnce_result parse s url body v hv hu hne hm
  obtain ⟨l1, l2⟩ := loadOnce_controls parse s body
  have hats1 : v1.atoms
      = [Atom.mk "Fe" fx fy fz fs, Atom.mk "O" ox oy oz os] := by
    have h7 : modelAtoms (loadOnce parse s body) = parse body := a7
    unfold modelAtoms at h7
    rw [hv1, hparse] at h7
    exact h7
  have hstats : extractStats (parse body) = [("Fe", 1), ("O", 1)] := by
    rw [hparse]
    rfl
  -- first click: the Fe atom
  have hv1x : ({ loadOnce parse s body with
      currentAtom := some (mkAtomInfo (Atom.mk "Fe" fx fy fz fs)) }
      : CompState).viewer = some v1 := hv1
  obtain ⟨v2, hv2⟩ := updateStyle_viewer_some
    { loadOnce parse s body with
      currentAtom := some (mkAtomInfo (Atom.mk "Fe" fx fy fz fs)) } v1 hv1x
  have hf1 : v1.atoms.find? (fun a => a.serial == fs)
      = some (Atom.mk "Fe" fx fy fz fs) := by
    rw [hats1]
    simp [List.find?]
  have hst0 : ({ loadOnce parse s body with
      currentAtom := some (mkAtomInfo (Atom.mk "Fe" fx fy fz fs)) }
      : CompState).style = "ball and stick" := l1.trans hstyle
  have hco0 : ({ loadOnce parse s body with
      currentAtom := some (mkAtomInfo (Atom.mk "Fe" fx fy fz fs)) }
      : CompState).useElementColors = true := l2.trans hcolors
  have hinfo0 : ({ loadOnce parse s body with
      currentAtom := some (mkAtomInfo (Atom.mk "Fe" fx fy fz fs)) }
      : CompState).atomsInfo
      = [mkAtomInfo (Atom.mk "Fe" fx fy fz fs),
         mkAtomInfo (Atom.mk "O" ox oy oz os)] := by
    show (loadOnce parse s body).atomsInfo = _
    rw [a1, hparse]
    rfl
  have hv2m : v2.model
      = [(Atom.mk "Fe" fx fy fz fs,
          { sphere := some { color := some "#E06633" },
            stick := some { color := some "#E06633" } }),
         (Atom.mk "O" ox oy oz os,
          { sphere := some { color := some "#FF0D0D" },
            stick := some { color := some "#FF0D0D" } })] := by
    have h := updateStyle_model_two
      { loadOnce parse s body with
        currentAtom := some (mkAtomInfo (Atom.mk "Fe" fx fy fz fs)) }
      v1 (Atom.mk "Fe" fx fy fz fs) (Atom.mk "O" ox oy oz os)
      hv1x hats1 rfl rfl hst0 hco0 hinfo0
    unfold viewerModelOf at h
    rw [hv2] at h
    exact h
  have hcur1 : (clickAtom (loadOnce parse s body) fs).currentAtom
      = some (mkAtomInfo (Atom.mk "Fe" fx fy fz fs)) := by
    rw [clickAtom_found (loadOnce parse s body) fs v1
      (Atom.mk "Fe" fx fy fz fs) v2 hv1 hc1 hf1 hv2]
    exact (updateStyle_fields _).2.2.2.2.1
  have hview1 : (clickAtom (loadOnce parse s body) fs).viewer
      = some (v2.setStyle (.serial fs) highlightStyle) := by
    rw [clickAtom_found (loadOnce parse s body) fs v1
      (Atom.mk "Fe" fx fy fz fs) v2 hv1 hc1 hf1 hv2]
  have hos : (os == fs) = false := by
    simpa using (Ne.symm hser)
  have hfsos : (fs == os) = false := by
    simpa using hser
  have hoc : (({ sphere := some { color := some "#FF0D0D" },
                 stick := some { color := some "#FF0D0D" } } : StyleSpec)
      == highlightStyle) = false := by decide
  have hfc : (({ sphere := some { color := some "#E06633" },
                 stick := some { color := some "#E06633" } } : StyleSpec)
      == highlightStyle) = false := by decide
  have hhl1 : highlightedSerials (clickAtom (loadOnce parse s body) fs)
      = [fs] := by
    unfold highlightedSerials
    rw [hview1]
    show (((v2.setStyle (.serial fs) highlightStyle).model.filter
        (fun p => p.2 == highlightStyle)).map (fun p => p.1.serial)) = [fs]
    rw [show (v2.setStyle (.serial fs) highlightStyle).model
        = setStyleL v2.model (.serial fs) highlightStyle from rfl, hv2m]
    simp [setStyleL, Atom.sel, hos, hoc, List.filter]
  -- second click: the O atom
  have hstR1 : (clickAtom (loadOnce parse s body) fs).style
      = "ball and stick" := by
    rw [clickAtom_found (loadOnce parse s body) fs v1
      (Atom.mk "Fe" fx fy fz fs) v2 hv1 hc1 hf1 hv2]
    exact ((updateStyle_controls _).1).trans (l1.trans hstyle)
  have hcoR1 : (clickAtom (loadOnce parse s body) fs).useElementColors
      = true := by
    rw [clickAtom_found (loadOnce parse s body) fs v1
      (Atom.mk "Fe" fx fy fz fs) v2 hv1 hc1 hf1 hv2]
    exact ((updateStyle_controls _).2.1).trans (l2.trans hcolors)
  have hinfoR1 : (clickAtom (loadOnce parse s body) fs).atomsInfo
      = [mkAtomInfo (Atom.mk "Fe" fx fy fz fs),
         mkAtomInfo (Atom.mk "O" ox oy oz os)] := by
    rw [clickAtom_found (loadOnce parse s body) fs v1
      (Atom.mk "Fe" fx fy fz fs) v2 hv1 hc1 hf1 hv2]
    exact ((updateStyle_fields _).1).trans hinfo0
  have hc3 : (v2.setStyle (.serial fs) highlightStyle).clickable = true :=
    (updateStyle_clickable
      { loadOnce parse s body with
        currentAtom := some (mkAtomInfo (Atom.mk "Fe" fx fy fz fs)) }
      v1 hv1x v2 hv2).trans hc1
  have hats3 : (v2.setStyle (.serial fs) highlightStyle).atoms
      = [Atom.mk "Fe" fx fy fz fs, Atom.mk "O" ox oy oz os] := by
    rw [atoms_setStyle]
    show v2.model.map Prod.fst = _
    rw [hv2m]
    rfl
  have hf2 : (v2.setStyle (.serial fs) highlightStyle).atoms.find?
      (fun a => a.serial == os) = some (Atom.mk "O" ox oy oz os) := by
    rw [hats3]
    simp [List.find?, hfsos]
  have hvX1 : ({ clickAtom (loadOnce parse s body) fs with
      currentAtom := some (mkAtomInfo (Atom.mk "O" ox oy oz os)) }
      : CompState).viewer = some (v2.setStyle (.serial fs) highlightStyle) :=
    hview1
  obtain ⟨v4, hv4⟩ := updateStyle_viewer_some
    { clickAtom (loadOnce parse s body) fs with
      currentAtom := some (mkAtomInfo (Atom.mk "O" ox oy oz os)) }
    (v2.setStyle (.serial fs) highlightStyle) hvX1
  have hv4m : v4.model
      = [(Atom.mk "Fe" fx fy fz fs,
          { sphere := some { color := some "#E06633" },
            stick := some { color := some "#E06633" } }),
         (Atom.mk "O" ox oy oz os,
          { sphere := some { color := some "#FF0D0D" },
            stick := some { color := some "#FF0D0D" } })] := by
    have h := updateStyle_model_two
      { clickAtom (loadOnce parse s body) fs with
        currentAtom := some (mkAtomInfo (Atom.mk "O" ox oy oz os)) }
      (v2.setStyle (.serial fs) highlightStyle)
      (Atom.mk "Fe" fx fy fz fs) (Atom.mk "O" ox oy oz os)
      hvX1 hats3 rfl rfl hstR1 hcoR1 hinfoR1
    unfold viewerModelOf at h
    rw [hv4] at h
    exact h
  have hview2 : (clickAtom (clickAtom (loadOnce parse s body) fs) os).viewer
      = some (v4.setStyle (.serial os) highlightStyle) := by
    rw [clickAtom_found (clickAtom (loadOnce parse s body) fs) os
      (v2.setStyle (.serial fs) highlightStyle)
      (Atom.mk "O" ox oy oz os) v4 hview1 hc3 hf2 hv4]
  have hhl2 : highlightedSerials
      (clickAtom (clickAtom (loadOnce parse s body) fs) os) = [os] := by
    unfold highlightedSerials
    rw [hview2]
    show (((v4.setStyle (.serial os) highlightStyle).model.filter
        (fun p => p.2 == highlightStyle)).map (fun p => p.1.serial)) = [os]
    rw [show (v4.setStyle (.serial os) highlightStyle).model
        = setStyleL v4.model (.serial os) highlightStyle from rfl, hv4m]
    simp [setStyleL, Atom.sel, hfsos, hfc, List.filter]
  refine ⟨a2.trans hstats, ?_, hhl1, hhl2⟩
  rw [hcur1]
  rfl

/-- Witness for C6: a freshly mounted component loads a concrete 2-atom
Fe/O structure; statistics, Fe selection with atomic number 26, and the
single moving highlight are all checked at these concrete inputs. -/
theorem claim_C6_fe_o_scenario_witness :
    (loadOnce parseFeO
        (run parseFeO (initialState (some "m.cif")) [.mount .success])
        "data_ feo").atomStats = [("Fe", 1), ("O", 1)]
    ∧ ((clickAtom (loadOnce parseFeO
          (run parseFeO (initialState (some "m.cif")) [.mount .success])
          "data_ feo") 1).currentAtom.map
        (fun a => (a.element, a.atomicNumber))) = some ("Fe", 26)
    ∧ highlightedSerials (clickAtom (loadOnce parseFeO
        (run parseFeO (initialState (some "m.cif")) [.mount .success])
        "data_ feo") 1) = [1]
    ∧ highlightedSerials (clickAtom (clickAtom (loadOnce parseFeO
        (run parseFeO (initialState (some "m.cif")) [.mount .success])
        "data_ feo") 1) 2) = [2] :=
  claim_C6_fe_o_scenario parseFeO
    (run parseFeO (initialState (some "m.cif")) [.mount .success])
    "m.cif" "data_ feo" (Viewer.create "#ffffff")
    { elem := "Fe", x := 0, y := 0, z := 0, serial := 1 }
    { elem := "O", x := 1, y := 0, z := 0, serial := 2 }
    rfl rfl (by decide) (by decide) rfl rfl rfl (by decide) rfl rfl
